import Mathlib

/-!
Verification development for the input packer of the graphql-go library
(package `internal/exec/packer`) together with two executor scenarios from
its test suite.

The packer source is embedded shallowly:
* Go's `reflect.Type` universe is the inductive `GoType`; named struct types
  are nominal and their fields live in an `Env`, which is how `reflect`
  presents them and what makes recursive Go types representable.
* Dynamic (JSON-shaped) input values and packed `reflect.Value` results share
  the single universe `GoVal`.
* Go `float64` inputs are modelled as rationals; every finite float is a
  rational, and the coercion code only compares and truncates, so the model
  is faithful on all finite floats (NaN and infinities are outside the model).
* The builder's cyclic packer graph is represented exactly as in the source:
  a map from (GraphQL type, Go type) pairs to packers, where cross references
  are stored as keys and read through the map, mirroring the two-stage
  reserve/fill table and `Finish`'s write-through of recorded targets.
* Recursion in the builder and in `Pack` is fuel-indexed: the Go code
  terminates by memoisation (builder) and by input exhaustion (pack); the
  fuel makes the same functions total in Lean, with a distinguished
  "out of fuel" error that adequate fuel never reaches.
-/

/-- Association-list lookup with decidable key equality, modelling Go map
reads (`b.packerMap[k]`) and `map[string]interface` member access. -/
def alookup {α β : Type} [DecidableEq α] : List (α × β) → α → Option β
  | [], _ => none
  | (k, v) :: rest, a => if k = a then some v else alookup rest a

/-- Replace the value stored at a key, modelling a Go map write to an
existing key. Keys absent from the list are unaffected. -/
def aupdate {α β : Type} [DecidableEq α] : List (α × β) → α → β → List (α × β)
  | [], _, _ => []
  | (k, v) :: rest, a, b => if k = a then (k, b) :: rest else (k, v) :: aupdate rest a b

/-- ASCII lower-casing of one character, modelling the case folding used by
Go's `strings.EqualFold` on the ASCII identifiers of this code base. -/
def asciiLowerChar (c : Char) : Char :=
  if 'A' ≤ c ∧ c ≤ 'Z' then Char.ofNat (c.toNat + 32) else c

/-- ASCII lower-casing of a string. -/
def asciiLower (s : String) : String := String.mk (s.toList.map asciiLowerChar)

/-- Model of `strings.EqualFold` for the ASCII names occurring here. -/
def equalFold (a b : String) : Bool := asciiLower a = asciiLower b

/-- Model of `stripUnderscore`: `strings.ReplaceAll(s, "_", "")`. -/
def stripUnderscore (s : String) : String :=
  String.mk (s.toList.filter (fun c => c ≠ '_'))

/-! ## GraphQL and Go type universes -/

/-- GraphQL `ast.Type`. Named types (`scalar`, `enum`, `inputObject`,
`object`) are nominal: the schema resolver interns each named type into a
single node, so name equality models Go's interface equality on these nodes.
Fields of an input object are looked up through `Env.inputObjects`. -/
inductive GqlType where
  | scalar (name : String)
  | enum (name : String)
  | inputObject (name : String)
  | object (name : String)
  | list (ofType : GqlType)
  | nonNull (ofType : GqlType)
deriving DecidableEq, Repr

/-- The `ast.Type.String()` rendering used by `ImplementsGraphQLType`. -/
def gqlTypeString : GqlType → String
  | .scalar n => n
  | .enum n => n
  | .inputObject n => n
  | .object n => n
  | .list t => "[" ++ gqlTypeString t ++ "]"
  | .nonNull t => gqlTypeString t ++ "!"

/-- Go `reflect.Type` universe as the packer observes it. `structT` is
nominal (fields via `Env.goStructs`), which both matches `reflect` and lets
recursive Go struct types exist. `unmarshalerT` stands for a user type whose
pointer implements `decode.Unmarshaler`; it records the GraphQL type names
its `ImplementsGraphQLType` accepts and whether it is a `NullUnmarshaller`. -/
inductive GoType where
  | int32T
  | intT
  | float64T
  | boolT
  | stringT
  | strNamed (name : String)
  | ptr (elem : GoType)
  | slice (elem : GoType)
  | structT (name : String)
  | unmarshalerT (name : String) (impls : List String) (nullable : Bool)
deriving DecidableEq, Repr

/-- Rendering of a Go type for error messages (`%s` on a `reflect.Type`). -/
def goTypeString : GoType → String
  | .int32T => "int32"
  | .intT => "int"
  | .float64T => "float64"
  | .boolT => "bool"
  | .stringT => "string"
  | .strNamed n => n
  | .ptr t => "*" ++ goTypeString t
  | .slice t => "[]" ++ goTypeString t
  | .structT n => n
  | .unmarshalerT n _ _ => n

/-- Model of `isNullable`: whether `reflect.New(t).Interface()` implements
`NullUnmarshaller`. Only custom unmarshaler types can. -/
def isNullable : GoType → Bool
  | .unmarshalerT _ _ b => b
  | _ => false

/-- Model of the `decode.Unmarshaler` test in `makeNonNullPacker`: the list
of GraphQL type names accepted when the Go type has a custom unmarshaler,
`none` when it has none. -/
def unmarshalerImpls : GoType → Option (List String)
  | .unmarshalerT _ is _ => some is
  | _ => none

/-! ## Value universe -/

/-- One universe for dynamic (JSON-shaped) inputs and packed `reflect.Value`
results. `vnull` is the nil `interface` value; `vint`/`vfloat`/`vstring
none`/`vbool` are the dynamic types JSON decoding produces; `vint32`,
`vstring (some n)`, `vptr`, `vslice`, `vstruct` arise from packing.
`vcustom t v` is the opaque result of a custom `UnmarshalGraphQL` call on
input `v` (user code outside this code base), and doubles as the opaque zero
of an unmarshaler type when `v` is `vnull`. -/
inductive GoVal where
  | vnull
  | vint (n : ℤ)
  | vint32 (n : ℤ)
  | vfloat (q : ℚ)
  | vstring (tyName : Option String) (s : String)
  | vbool (b : Bool)
  | vlist (xs : List GoVal)
  | vmap (kvs : List (String × GoVal))
  | vptr (x : Option GoVal)
  | vslice (elemTy : GoType) (xs : List GoVal)
  | vstruct (name : String) (fields : List (String × GoVal))
  | vcustom (ty : GoType) (input : GoVal)

/-- Model of `reflect.TypeOf` on the universe, partial where the Go dynamic
type (for example `[]interface`) has no counterpart in `GoType`; those cases
can never equal a packer target type, so `none` is adequate. -/
def dynType : GoVal → Option GoType
  | .vnull => none
  | .vint _ => some .intT
  | .vint32 _ => some .int32T
  | .vfloat _ => some .float64T
  | .vstring none _ => some .stringT
  | .vstring (some n) _ => some (.strNamed n)
  | .vbool _ => some .boolT
  | .vlist _ => none
  | .vmap _ => none
  | .vptr _ => none
  | .vslice t _ => some (.slice t)
  | .vstruct n _ => some (.structT n)
  | .vcustom t _ => some t

/-! ## Built-in scalar coercion: `unmarshalInput` -/

/-- Go's conversion of a (finite) float to `int32` for in-range values:
truncation toward zero. On `q.num / q.den` in lowest terms with positive
denominator this is exactly `Int.tdiv`. -/
def ratTrunc (q : ℚ) : ℤ := Int.tdiv q.num q.den

/-- Go's `string(rune(n))` conversion: the one-character string of the code
point, or the replacement character for values outside the valid range. -/
def goRuneString (n : ℤ) : String :=
  if 0 ≤ n ∧ (n < 0xD800 ∨ (0xE000 ≤ n ∧ n < 0x110000)) then
    String.singleton (Char.ofNat n.toNat)
  else
    "�"

/-- Go types of kind `reflect.String`, with the name tag their values carry:
`some none` for the built-in `string`, `some (some n)` for a named string
type. -/
def stringKindName : GoType → Option (Option String)
  | .stringT => some none
  | .strNamed n => some (some n)
  | _ => none

/-- Model of `reflect.Value.Convert` to a string-kind type, defined on the
values whose types are convertible to string: string values (re-tagged) and
integers (Go's rune conversion). -/
def stringConvert (tyName : Option String) : GoVal → Option GoVal
  | .vstring _ s => some (.vstring tyName s)
  | .vint n => some (.vstring tyName (goRuneString n))
  | .vint32 n => some (.vstring tyName (goRuneString n))
  | _ => none

/-- The built-in scalar coercion `unmarshalInput`. The first test returns
the input unchanged when its dynamic type is already the target type; the
`Int32` case accepts `int` values and exact-integer floats in the 32-bit
range; `Float64` accepts `int32` and `int`; string-kind targets accept any
convertible value. Everything else is an "incompatible type" error. -/
def unmarshalInput (typ : GoType) (input : GoVal) : Except String GoVal :=
  if dynType input = some typ then
    .ok input
  else
    match typ, input with
    | .int32T, .vint n =>
        if n < -2147483648 ∨ n > 2147483647 then
          .error "not a 32-bit integer"
        else
          .ok (.vint32 n)
    | .int32T, .vfloat q =>
        let coerced := ratTrunc q
        if q < -2147483648 ∨ q > 2147483647 ∨ ¬((coerced : ℚ) = q) then
          .error "not a 32-bit integer"
        else
          .ok (.vint32 coerced)
    | .float64T, .vint32 n => .ok (.vfloat (n : ℚ))
    | .float64T, .vint n => .ok (.vfloat (n : ℚ))
    | t, v =>
        match stringKindName t with
        | some tyName =>
            match stringConvert tyName v with
            | some w => .ok w
            | none => .error "incompatible type"
        | none => .error "incompatible type"

/-! ## Facts about `ratTrunc` -/

/-- An integer-valued rational truncates to its numerator. -/
theorem ratTrunc_intCast (n : ℤ) : ratTrunc (n : ℚ) = n := by
  unfold ratTrunc
  rw [Rat.intCast_num, Rat.intCast_den]
  simp

/-- Truncation is exact precisely on integer-valued rationals. -/
theorem ratTrunc_exact_iff (q : ℚ) : ((ratTrunc q : ℚ) = q) ↔ q.den = 1 := by
  constructor
  · intro h
    have := Rat.intCast_den (ratTrunc q)
    rw [h] at this
    exact this
  · intro h
    unfold ratTrunc
    rw [h]
    simp only [Nat.cast_one, Int.tdiv_one]
    exact_mod_cast (Rat.den_eq_one_iff q).mp h

/-! ## Claim C3 and C9: the built-in scalar coercion -/

/-- Every successful `unmarshalInput` result has the target dynamic type. -/
theorem unmarshalInput_ok_dynType (typ : GoType) (v w : GoVal)
    (h : unmarshalInput typ v = .ok w) : dynType w = some typ := by
  by_cases hd : dynType v = some typ
  · rw [unmarshalInput.eq_def, if_pos hd] at h
    injection h with h
    subst h
    exact hd
  · rw [unmarshalInput.eq_def, if_neg hd] at h
    cases typ <;> cases v <;>
      (try simp only [stringKindName, stringConvert] at h) <;>
      (try split_ifs at h) <;>
      (try cases h) <;>
      simp [dynType]

/-- C3: for the built-in coercion targeting a 32-bit Int, an integer in
[-2^31, 2^31-1] coerces to itself, a float that is exactly such an integer
coerces to that integer, and every out-of-range integer and every
non-exact-integer or out-of-range float is an error. -/
theorem int32_builtin_coercion :
    (∀ n : ℤ, -2147483648 ≤ n ∧ n ≤ 2147483647 →
        unmarshalInput .int32T (.vint n) = .ok (.vint32 n)) ∧
    (∀ n : ℤ, n < -2147483648 ∨ n > 2147483647 →
        unmarshalInput .int32T (.vint n) = .error "not a 32-bit integer") ∧
    (∀ (q : ℚ) (n : ℤ), q = (n : ℚ) → -2147483648 ≤ n → n ≤ 2147483647 →
        unmarshalInput .int32T (.vfloat q) = .ok (.vint32 n)) ∧
    (∀ q : ℚ, q.den ≠ 1 ∨ q < -2147483648 ∨ q > 2147483647 →
        unmarshalInput .int32T (.vfloat q) = .error "not a 32-bit integer") := by
  refine ⟨?_, ?_, ?_, ?_⟩
  · intro n h
    rw [unmarshalInput]
    simp only [dynType, reduceCtorEq, Option.some.injEq, if_false]
    rw [if_neg (by omega)]
  · intro n h
    rw [unmarshalInput]
    simp only [dynType, reduceCtorEq, Option.some.injEq, if_false]
    rw [if_pos (by omega)]
  · intro q n hq h1 h2
    subst hq
    rw [unmarshalInput]
    simp only [dynType, reduceCtorEq, Option.some.injEq, if_false]
    rw [if_neg, ratTrunc_intCast]
    push_neg
    refine ⟨by exact_mod_cast h1, by exact_mod_cast h2, ?_⟩
    rw [ratTrunc_intCast]
  · intro q h
    rw [unmarshalInput]
    simp only [dynType, reduceCtorEq, Option.some.injEq, if_false]
    rw [if_pos]
    rcases h with h | h | h
    · exact Or.inr (Or.inr (by rw [ratTrunc_exact_iff]; exact h))
    · exact Or.inl h
    · exact Or.inr (Or.inl h)

/-- Witness for C3 at concrete inputs: 42 and 42.0 coerce, 2^31 and 42.5
are errors. -/
theorem int32_builtin_coercion_witness :
    unmarshalInput .int32T (.vint 42) = .ok (.vint32 42) ∧
    unmarshalInput .int32T (.vint 2147483648) = .error "not a 32-bit integer" ∧
    unmarshalInput .int32T (.vfloat (42 : ℚ)) = .ok (.vint32 42) ∧
    unmarshalInput .int32T (.vfloat (mkRat 85 2)) = .error "not a 32-bit integer" :=
  ⟨int32_builtin_coercion.1 42 (by norm_num),
   int32_builtin_coercion.2.1 2147483648 (by norm_num),
   int32_builtin_coercion.2.2.1 (42 : ℚ) 42 (by norm_num) (by norm_num) (by norm_num),
   int32_builtin_coercion.2.2.2 (mkRat 85 2) (Or.inl (by decide))⟩

/-- C9: the built-in coercion is idempotent. An input whose dynamic type is
already the target type is returned unchanged, and re-coercing any
successful result returns it unchanged with no error. -/
theorem unmarshalInput_idempotent :
    (∀ (typ : GoType) (v : GoVal), dynType v = some typ →
        unmarshalInput typ v = .ok v) ∧
    (∀ (typ : GoType) (v w : GoVal), unmarshalInput typ v = .ok w →
        unmarshalInput typ w = .ok w) := by
  have base : ∀ (typ : GoType) (v : GoVal), dynType v = some typ →
      unmarshalInput typ v = .ok v := by
    intro typ v h
    rw [unmarshalInput.eq_def, if_pos h]
  refine ⟨base, ?_⟩
  intro typ v w h
  exact base typ w (unmarshalInput_ok_dynType typ v w h)

/-- Witness for C9: an `int32` value passes through unchanged, and the
result of coercing the int 7 re-coerces to itself. -/
theorem unmarshalInput_idempotent_witness :
    unmarshalInput .int32T (.vint32 7) = .ok (.vint32 7) ∧
    unmarshalInput .int32T (.vint32 7) = .ok (.vint32 7) :=
  ⟨unmarshalInput_idempotent.1 .int32T (.vint32 7) rfl,
   unmarshalInput_idempotent.2 .int32T (.vint 7) (.vint32 7) rfl⟩

/-! ## The packer graph

Cross references between packers are stored exactly as the source stores
them: `listPacker.elem` and `structPackerField.packer` are assigned through
`Builder.assignPacker`, so they are recorded as (GraphQL type, Go type)
keys and resolved through the packer map once `Finish` has written every
entry through to its targets. `nullPacker.elemPacker` and the struct packer
of an input object are built directly and are direct sub-terms. -/

/-- Model of the source's `structPackerField`. `fdef` is the field's `def`
(declared default value), stored here in its `Deserialize(nil)` dynamic
shape, which is the only way `Finish` consumes it. `index` is the Go struct
field index found by `FieldByNameFunc`, and `packer` is represented by the
reserved map key recorded by `assignPacker`. -/
structure structPackerField where
  name : String
  index : Nat
  fdef : Option GoVal
  key : GqlType × GoType

/-- Model of the source's `StructPacker`. `id` identifies the one shared
object that `Builder.structPackers` also holds (Go aliases it by pointer),
so `Finish`'s mutation of `defaultStruct` is a side table keyed by `id`. -/
structure StructPacker where
  id : Nat
  structType : String
  usePtr : Bool
  fields : List structPackerField

/-- The packer interface's implementations. -/
inductive Packer where
  | unmarshalerPacker (ValueType : GoType)
  | ValuePacker (ValueType : GoType)
  | StructPacker (sp : StructPacker)
  | listPacker (sliceType : GoType) (elemKey : GqlType × GoType)
  | nullPacker (elemPacker : Packer) (valueType : GoType) (addPtr : Bool)

/-- Model of an `ast.InputValueDefinition`: argument or input-object field
name, declared type, and optional default value (deserialized shape). -/
structure InputValueDef where
  name : String
  type : GqlType
  default : Option GoVal

/-- One field of a Go struct type as `reflect` reports it; `exported` is
`PkgPath == ""`. -/
structure GoField where
  name : String
  type : GoType
  exported : Bool

/-- The nominal environment: fields of named Go struct types and values of
named GraphQL input object types (in the ast these hang off the interned
type nodes; the nominal split is what makes recursive types finite here). -/
structure Env where
  goStructs : List (String × List GoField)
  inputObjects : List (String × List InputValueDef)

/-- Model of the source's `Builder`: the two-stage packer map (a reserved
slot holds `none` until its packer is built) and the list of all struct
packers in creation order. -/
structure Builder where
  packerMap : List ((GqlType × GoType) × Option Packer)
  structPackers : List StructPacker

/-- Model of `NewBuilder`. -/
def NewBuilder : Builder := { packerMap := [], structPackers := [] }

/-- Model of `unwrapNonNull`. -/
def unwrapNonNull : GqlType → GqlType × Bool
  | .nonNull t => (t, true)
  | t => (t, false)

/-- The `*ast.NonNull` type test in `MakeStructPacker`. -/
def isNonNullType : GqlType → Bool
  | .nonNull _ => true
  | _ => false

/-- The `reflect.Ptr` kind test. -/
def isPtrType : GoType → Bool
  | .ptr _ => true
  | _ => false

/-- The `reflect.Slice` kind test. -/
def isSliceType : GoType → Bool
  | .slice _ => true
  | _ => false

/-- The `*ast.InputObject` type test. -/
def isInputObjectType : GqlType → Bool
  | .inputObject _ => true
  | _ => false

/-- Model of `reflect.Type.Elem` on pointer and slice types. -/
def goElemType : GoType → GoType
  | .ptr e => e
  | .slice e => e
  | t => t

/-- Model of `reflect.Type.FieldByNameFunc` with the builder's match
function (case-insensitive equality after underscore stripping), returning
the field and its index. Go reports no match when several fields match, so
a unique match is required. -/
def fieldByNameFunc (sfields : List GoField) (name : String) : Option (Nat × GoField) :=
  match (List.enum sfields).filter
      (fun p => equalFold (stripUnderscore p.2.name) (stripUnderscore name)) with
  | [m] => some m
  | _ => none

mutual

/-- Model of `Builder.assignPacker`: look the (schema type, Go type) pair up
in `packerMap`; on a miss reserve the slot first, build the packer with
`makePacker` (during which nested requests for the same pair find the
reserved slot), and store the built packer in the slot. The caller's target
pointer is represented by the returned key, which `Pack` later resolves
through the map — the write-through `Finish`'s first loop performs. -/
def assignPacker (env : Env) : Nat → Builder → GqlType → GoType →
    Except String (Builder × (GqlType × GoType))
  | 0, _, _, _ => .error "out of fuel"
  | fuel+1, b, schemaType, reflectType =>
    let k := (schemaType, reflectType)
    match alookup b.packerMap k with
    | some _ => .ok (b, k)
    | none =>
        let b1 : Builder := { b with packerMap := b.packerMap ++ [(k, none)] }
        match makePacker env fuel b1 schemaType reflectType with
        | .error e => .error e
        | .ok (b2, p) =>
            .ok ({ b2 with packerMap := aupdate b2.packerMap k (some p) }, k)

/-- Model of `Builder.makePacker`: non-null types go straight to
`makeNonNullPacker`; nullable types need a pointer target (kept whole for
input objects, dereferenced with `addPtr` otherwise) or a specially
nullable target, and wrap the element packer in a `nullPacker`. -/
def makePacker (env : Env) : Nat → Builder → GqlType → GoType →
    Except String (Builder × Packer)
  | 0, _, _, _ => .error "out of fuel"
  | fuel+1, b, schemaType, reflectType =>
    match unwrapNonNull schemaType with
    | (t, true) => makeNonNullPacker env fuel b t reflectType
    | (t, false) =>
        if isPtrType reflectType then
          -- keep the pointer for input objects
          let ep : GoType × Bool :=
            if isInputObjectType t then (reflectType, false)
            else (goElemType reflectType, true)
          match makeNonNullPacker env fuel b t ep.1 with
          | .error e => .error e
          | .ok (b', elem) => .ok (b', .nullPacker elem reflectType ep.2)
        else if isNullable reflectType then
          match makeNonNullPacker env fuel b t reflectType with
          | .error e => .error e
          | .ok (b', elem) => .ok (b', .nullPacker elem reflectType false)
        else
          .error (goTypeString reflectType ++ " is not a pointer or a nullable type")

/-- Model of `Builder.makeNonNullPacker`: a custom unmarshaler wins if its
`ImplementsGraphQLType` accepts the type name; otherwise scalars and enums
get a `ValuePacker` (enums requiring a string kind), input objects a struct
packer, lists a `listPacker` whose element is assigned through the map, and
output kinds are rejected. -/
def makeNonNullPacker (env : Env) : Nat → Builder → GqlType → GoType →
    Except String (Builder × Packer)
  | 0, _, _, _ => .error "out of fuel"
  | fuel+1, b, schemaType, reflectType =>
    match unmarshalerImpls reflectType with
    | some impls =>
        if gqlTypeString schemaType ∈ impls then
          .ok (b, .unmarshalerPacker reflectType)
        else
          .error ("can not unmarshal " ++ gqlTypeString schemaType ++ " into " ++
            goTypeString reflectType)
    | none =>
      match schemaType with
      | .scalar _ => .ok (b, .ValuePacker reflectType)
      | .enum _ =>
          match stringKindName reflectType with
          | some _ => .ok (b, .ValuePacker reflectType)
          | none => .error "wrong type, expected string"
      | .inputObject n =>
          match alookup env.inputObjects n with
          | none => .error ("unresolved input object " ++ n)
          | some values =>
              match MakeStructPacker env fuel b values reflectType with
              | .error e => .error e
              | .ok (b', sp) => .ok (b', .StructPacker sp)
      | .list ofType =>
          if isSliceType reflectType then
            match assignPacker env fuel b ofType (goElemType reflectType) with
            | .error e => .error e
            | .ok (b', k) => .ok (b', .listPacker reflectType k)
          else
            .error ("expected slice, got " ++ goTypeString reflectType)
      | .object _ => .error "type of kind OBJECT can not be used as input"
      | .nonNull _ => .error "unreachable"

/-- Model of `Builder.MakeStructPacker`: dereference a pointer target,
require a struct, build every declared value's field, and append the new
struct packer to `structPackers` (its `id` is its position, standing for
the shared pointer Go keeps there). -/
def MakeStructPacker (env : Env) : Nat → Builder → List InputValueDef → GoType →
    Except String (Builder × StructPacker)
  | 0, _, _, _ => .error "out of fuel"
  | fuel+1, b, values, typ =>
    let structType := if isPtrType typ then goElemType typ else typ
    let usePtr := isPtrType typ
    match structType with
    | .structT sname =>
        match alookup env.goStructs sname with
        | none => .error ("unresolved struct type " ++ sname)
        | some sfields =>
            match makeStructPackerFields env fuel b sfields values with
            | .error e => .error e
            | .ok (b', fields) =>
                let p : StructPacker :=
                  { id := b'.structPackers.length, structType := sname,
                    usePtr := usePtr, fields := fields }
                .ok ({ b' with structPackers := b'.structPackers ++ [p] }, p)
    | _ =>
        .error ("expected struct or pointer to struct, got " ++ goTypeString typ ++
          " (hint: missing args struct wrapper for field arguments?)")

/-- The loop of `MakeStructPacker` over the declared values, in order,
threading the builder. -/
def makeStructPackerFields (env : Env) : Nat → Builder → List GoField → List InputValueDef →
    Except String (Builder × List structPackerField)
  | 0, _, _, _ => .error "out of fuel"
  | _+1, b, _, [] => .ok (b, [])
  | fuel+1, b, sfields, v :: rest =>
      match makeStructPackerField env fuel b sfields v with
      | .error e => .error e
      | .ok (b', fe) =>
          match makeStructPackerFields env fuel b' sfields rest with
          | .error e => .error e
          | .ok (b'', fes) => .ok (b'', fe :: fes)

/-- The body of `MakeStructPacker`'s loop for one declared value: find the
Go field (case- and underscore-insensitively), require it exported, reject
a pointer field for a non-null parameter, wrap the declared type in
`NonNull` when a default value is present, and assign the field's packer
through the map. -/
def makeStructPackerField (env : Env) : Nat → Builder → List GoField → InputValueDef →
    Except String (Builder × structPackerField)
  | 0, _, _, _ => .error "out of fuel"
  | fuel+1, b, sfields, v =>
      match fieldByNameFunc sfields v.name with
      | none => .error ("struct does not define field " ++ v.name ++
          " (hint: missing args struct wrapper, or missing field on input struct)")
      | some (i, sf) =>
          if sf.exported = false then
            .error ("field " ++ sf.name ++ " must be exported")
          else if isNonNullType v.type ∧ isPtrType sf.type then
            .error ("field " ++ sf.name ++
              " must be a non-pointer since the parameter is required")
          else
            let ft := match v.default with
              | some _ => GqlType.nonNull (unwrapNonNull v.type).1
              | none => v.type
            match assignPacker env fuel b ft sf.type with
            | .error e => .error e
            | .ok (b', k) =>
                .ok (b', { name := v.name, index := i, fdef := v.default, key := k })

end

/-! ## Packing -/

/-- Error-propagating left fold over struct packer fields, the shape of the
for-loops in `StructPacker.Pack` and `Finish`: visit the fields in order,
threading the struct being built, stopping at the first error. -/
def foldME (f : GoVal → structPackerField → Except String GoVal) :
    GoVal → List structPackerField → Except String GoVal
  | acc, [] => .ok acc
  | acc, fld :: rest =>
      match f acc fld with
      | .error e => .error e
      | .ok acc2 => foldME f acc2 rest

/-- Error-propagating elementwise loop, the shape of `listPacker.Pack`'s
for-loop: pack elements left to right, stopping at the first error. -/
def mapME {alp bet : Type} (f : alp → Except String bet) : List alp → Except String (List bet)
  | [] => .ok []
  | x :: xs =>
      match f x with
      | .error e => .error e
      | .ok y =>
          match mapME f xs with
          | .error e => .error e
          | .ok ys => .ok (y :: ys)

/-- The finished packer map: every slot's built packer, read at the keys
recorded for targets (what `Finish`'s first loop wrote through). -/
def resolveKey (pm : List ((GqlType × GoType) × Option Packer))
    (k : GqlType × GoType) : Option Packer :=
  match alookup pm k with
  | some (some p) => some p
  | _ => none

/-- Go's zero value of a type (`reflect.New(t).Elem()`), with fuel for the
struct case whose field types come from the environment. An unmarshaler
type's zero is opaque user data. -/
def zeroVal (env : Env) : Nat → GoType → GoVal
  | 0, _ => .vnull
  | fuel+1, t =>
    match t with
    | .int32T => .vint32 0
    | .intT => .vint 0
    | .float64T => .vfloat 0
    | .boolT => .vbool false
    | .stringT => .vstring none ""
    | .strNamed n => .vstring (some n) ""
    | .ptr _ => .vptr none
    | .slice e => .vslice e []
    | .structT n =>
        match alookup env.goStructs n with
        | none => .vnull
        | some fs => .vstruct n (fs.map (fun f => (f.name, zeroVal env fuel f.type)))
    | .unmarshalerT nm is bl => .vcustom (.unmarshalerT nm is bl) .vnull

/-- Write position `i` of a struct's field list (`FieldByIndex(...).Set`). -/
def setFieldList : List (String × GoVal) → Nat → GoVal → List (String × GoVal)
  | [], _, _ => []
  | (n, _) :: rest, 0, x => (n, x) :: rest
  | f :: rest, i+1, x => f :: setFieldList rest i x

/-- Write a field of a struct value. -/
def setStructField : GoVal → Nat → GoVal → GoVal
  | .vstruct n fs, i, x => .vstruct n (setFieldList fs i x)
  | v, _, _ => v

/-- Model of `ValuePacker.Pack`: null is rejected, otherwise the built-in
coercion runs and its failure is wrapped in a "could not unmarshal" error. -/
def valuePackerPack (ty : GoType) (value : GoVal) : Except String GoVal :=
  match value with
  | .vnull => .error "got null for non-null"
  | v =>
      match unmarshalInput ty v with
      | .ok coerced => .ok coerced
      | .error e => .error ("could not unmarshal into " ++ goTypeString ty ++ ": " ++ e)

/-- Model of `unmarshalerPacker.Pack`: null is rejected unless the type is
a `NullUnmarshaller`; the actual `UnmarshalGraphQL` call is user code whose
result is opaque. -/
def unmarshalerPackerPack (ty : GoType) (value : GoVal) : Except String GoVal :=
  match value, isNullable ty with
  | .vnull, false => .error "got null for non-null"
  | v, _ => .ok (.vcustom ty v)

/-- The `Pack` methods of the packer implementations as one dispatcher.
`pm` is the finished packer map through which recorded keys resolve, `ds`
maps each struct packer's `id` to its `defaultStruct` prototype (`Finish`'s
mutation), and the fuel bounds recursion depth; the Go originals terminate
on every input because each recursive call consumes input or follows a
strictly smaller type, so adequate fuel never reaches the fuel error.

Per implementation:
* `nullPacker.Pack` maps null to the target type's zero (unless the target
  is specially nullable), otherwise delegates to the element packer and
  adds a pointer indirection when `addPtr` is set;
* `listPacker.Pack` wraps a non-array value into a singleton list, then
  packs the elements in order into a slice;
* `StructPacker.Pack` rejects null, asserts a map, starts from the default
  prototype, overrides each field present in the map with its packed value,
  and returns a pointer to the struct when `usePtr` is set. A missing
  prototype is the model of the invalid `reflect.Value{}` that exists
  before `Finish` ran (Go would panic there). -/
def Pack (env : Env) (pm : List ((GqlType × GoType) × Option Packer))
    (ds : List (Nat × GoVal)) : Nat → Packer → GoVal → Except String GoVal
  | 0, _, _ => .error "pack: out of fuel"
  | fuel+1, p, value =>
    match p with
    | .ValuePacker ty => valuePackerPack ty value
    | .unmarshalerPacker ty => unmarshalerPackerPack ty value
    | .nullPacker elem valueType addPtr =>
        match value, isNullable valueType with
        | .vnull, false => .ok (zeroVal env (fuel+1) valueType)
        | v, _ =>
            match Pack env pm ds fuel elem v with
            | .error e => .error e
            | .ok x => .ok (if addPtr then .vptr (some x) else x)
    | .listPacker sliceType elemKey =>
        let list := match value with
          | .vlist xs => xs
          | v => [v]
        match resolveKey pm elemKey with
        | none => .error "pack: nil element packer"
        | some ep =>
            match mapME (fun x => Pack env pm ds fuel ep x) list with
            | .error e => .error e
            | .ok ys => .ok (.vslice (goElemType sliceType) ys)
    | .StructPacker sp =>
        match value with
        | .vnull => .error "got null for non-null"
        | .vmap values =>
            match alookup ds sp.id with
            | none => .error "pack: defaultStruct is the invalid reflect.Value (Finish has not run)"
            | some proto =>
                match foldME (fun acc f =>
                    (match alookup values f.name with
                    | none => .ok acc
                    | some fv =>
                        match resolveKey pm f.key with
                        | none => .error "pack: nil field packer"
                        | some fp =>
                            match Pack env pm ds fuel fp fv with
                            | .error e => .error e
                            | .ok packed => .ok (setStructField acc f.index packed) :
                      Except String GoVal)) proto sp.fields with
                | .error e => .error e
                | .ok w => .ok (if sp.usePtr then .vptr (some w) else w)
        | _ => .error "panic: interface conversion: value is not a string map"

/-- The defaults pass of `Finish` for one struct packer: a fresh zero
struct whose defaulted fields are overwritten with their packed default
values, packed through the already-written map and the defaults built so
far (the source mutates `defaultStruct` in `structPackers` order). -/
def finishDefaultStruct (env : Env) (pm : List ((GqlType × GoType) × Option Packer))
    (ds : List (Nat × GoVal)) (fuel : Nat) (sp : StructPacker) : Except String GoVal :=
  foldME (fun acc f =>
      match f.fdef with
      | none => .ok acc
      | some defaultVal =>
          match resolveKey pm f.key with
          | none => .error "finish: nil field packer"
          | some fp =>
              match Pack env pm ds fuel fp defaultVal with
              | .error e => .error e
              | .ok v => .ok (setStructField acc f.index v))
    (zeroVal env fuel (.structT sp.structType)) sp.fields

/-- Model of `Builder.Finish`. The source's first loop writes every map
entry's packer through to its recorded targets; here targets are stored
keys and `Pack` reads them through the map, so that loop needs no data. The
second loop builds each struct packer's `defaultStruct` prototype in
`structPackers` order, accumulating the side table keyed by `id`. -/
def Finish (env : Env) (pm : List ((GqlType × GoType) × Option Packer)) (fuel : Nat) :
    List StructPacker → List (Nat × GoVal) → Except String (List (Nat × GoVal))
  | [], acc => .ok acc
  | sp :: rest, acc =>
      match finishDefaultStruct env pm acc fuel sp with
      | .error e => .error e
      | .ok proto => Finish env pm fuel rest (acc ++ [(sp.id, proto)])

/-! ## The recursive input type of TestInput -/

/-- Environment of TestInput's recursive case: GraphQL
`input RecursiveInput \x7b next: RecursiveInput \x7d`, Go
`type recursive struct \x7b Next *recursive \x7d`, and the resolver's
`args struct \x7b Value *recursive \x7d`. -/
def recursiveEnv : Env :=
  { goStructs :=
      [("recursiveArgs",
          [{ name := "Value", type := .ptr (.structT "recursive"), exported := true }]),
       ("recursive",
          [{ name := "Next", type := .ptr (.structT "recursive"), exported := true }])],
    inputObjects :=
      [("RecursiveInput",
          [{ name := "next", type := .inputObject "RecursiveInput", default := none }])] }

/-- The declared argument `value: RecursiveInput` of the `recursive` field. -/
def recursiveArgsValues : List InputValueDef :=
  [{ name := "value", type := .inputObject "RecursiveInput", default := none }]

/-- The dynamic input of `recursive(value: \x7bnext: \x7bnext: \x7b\x7d\x7d\x7d)`. -/
def recursiveInput3 : GoVal :=
  .vmap [("value", .vmap [("next", .vmap [("next", .vmap [])])])]

/-- The counting loop of the test resolver `Recursive`: starting from the
packed `Value` pointer, follow `Next` links, counting non-nil pointers. -/
def recursiveCount : Nat → GoVal → Nat
  | 0, _ => 0
  | fuel+1, v =>
    match v with
    | .vptr (some (.vstruct _ fields)) =>
        match alookup fields "Next" with
        | some next => 1 + recursiveCount fuel next
        | none => 1
    | _ => 0

/-- End-to-end pipeline of TestInput's recursive case: build the args
struct packer, finish the builder, pack the three-level input, and run the
resolver's counting loop on the packed `Value` field. -/
def recursivePipeline : Except String Nat :=
  match MakeStructPacker recursiveEnv 20 NewBuilder recursiveArgsValues (.structT "recursiveArgs") with
  | .error e => .error e
  | .ok (b, sp) =>
      match Finish recursiveEnv b.packerMap 20 b.structPackers [] with
      | .error e => .error e
      | .ok ds =>
          match Pack recursiveEnv b.packerMap ds 20 (.StructPacker sp) recursiveInput3 with
          | .error e => .error e
          | .ok w =>
              match w with
              | .vstruct _ (("Value", v) :: _) => .ok (recursiveCount 20 v)
              | _ => .error "unexpected args shape"

/-! ## Claim C5: null handling -/

/-- A struct packer built for a pointer type records `usePtr`. -/
theorem MakeStructPacker_ptr_usePtr (env : Env) (fuel : Nat) (b : Builder)
    (values : List InputValueDef) (e : GoType) (b' : Builder) (sp : StructPacker)
    (h : MakeStructPacker env fuel b values (.ptr e) = .ok (b', sp)) :
    sp.usePtr = true := by
  cases fuel with
  | zero => simp [MakeStructPacker] at h
  | succ fuel =>
      rw [MakeStructPacker] at h
      simp only [isPtrType, goElemType] at h
      split at h
      · split at h
        · cases h
        · split at h
          · cases h
          · injection h with hpair
            cases hpair
            rfl
      · cases h

/-- A successful `makeNonNullPacker` on an input object with a pointer
target built a struct packer through `MakeStructPacker`. -/
theorem makeNonNullPacker_inputObject_ptr_ok (env : Env) (fuel : Nat) (b : Builder)
    (n : String) (pt : GoType) (b' : Builder) (p : Packer)
    (h : makeNonNullPacker env fuel b (.inputObject n) (.ptr pt) = .ok (b', p)) :
    ∃ sp values, p = .StructPacker sp ∧ alookup env.inputObjects n = some values ∧
      MakeStructPacker env fuel.pred b values (.ptr pt) = .ok (b', sp) := by
  cases fuel with
  | zero => simp [makeNonNullPacker] at h
  | succ fuel =>
      rw [makeNonNullPacker] at h
      simp only [unmarshalerImpls] at h
      split at h
      · cases h
      · rename_i values hv
        split at h
        · cases h
        · rename_i pr sp hsp
          injection h with hpair
          cases hpair
          exact ⟨sp, values, rfl, hv, hsp⟩

/-- C5: a nullable wrapper packs null to the target Go type's zero value
(for targets that are not specially nullable) and delegates every non-null
input to the element packer, adding a pointer indirection exactly when
`addPtr` was set at build time; the builder sets `addPtr` on a pointer
target unless the element type is an input object, in which case the
element struct packer itself produces the pointer (`usePtr`). In non-null
position, `ValuePacker.Pack` and `StructPacker.Pack` reject null with the
error "got null for non-null" and return no value. -/
theorem nullPacker_and_nonNull_null_handling :
    (∀ (env : Env) pm ds (fuel : Nat) (elem : Packer) (vt : GoType) (ap : Bool),
        isNullable vt = false →
        Pack env pm ds (fuel+1) (.nullPacker elem vt ap) .vnull =
          .ok (zeroVal env (fuel+1) vt)) ∧
    (∀ (env : Env) pm ds (fuel : Nat) (elem : Packer) (vt : GoType) (ap : Bool)
        (v : GoVal), v ≠ .vnull →
        Pack env pm ds (fuel+1) (.nullPacker elem vt ap) v =
          (Pack env pm ds fuel elem v).map
            (fun x => if ap then .vptr (some x) else x)) ∧
    (∀ (env : Env) (fuel : Nat) (b : Builder) (st : GqlType) (pt : GoType)
        (b' : Builder) (p : Packer),
        makePacker env (fuel+1) b st (.ptr pt) = .ok (b', p) →
        (unwrapNonNull st).2 = false →
        (isInputObjectType (unwrapNonNull st).1 = false →
            ∃ elem, p = .nullPacker elem (.ptr pt) true) ∧
        (∀ n, (unwrapNonNull st).1 = .inputObject n →
            ∃ sp, p = .nullPacker (.StructPacker sp) (.ptr pt) false ∧ sp.usePtr = true)) ∧
    (∀ (env : Env) pm ds (fuel : Nat) (ty : GoType),
        Pack env pm ds (fuel+1) (.ValuePacker ty) .vnull = .error "got null for non-null") ∧
    (∀ (env : Env) pm ds (fuel : Nat) (sp : StructPacker),
        Pack env pm ds (fuel+1) (.StructPacker sp) .vnull = .error "got null for non-null") := by
  refine ⟨?_, ?_, ?_, ?_, ?_⟩
  · intro env pm ds fuel elem vt ap h
    rw [Pack]
    simp [h]
  · intro env pm ds fuel elem vt ap v hv
    rw [Pack]
    · cases hres : Pack env pm ds fuel elem v with
      | error e => simp [hres, Except.map]
      | ok x => simp [hres, Except.map]
    · intro h1 h2
      exact hv h1
  · intro env fuel b st pt b' p h hnn
    rcases hu : unwrapNonNull st with ⟨t, flag⟩
    rw [hu] at hnn
    simp only at hnn
    subst hnn
    rw [makePacker, hu] at h
    split at h
    · rename_i heqpair
      cases heqpair
    rename_i t2 heqpair
    injection heqpair with ht hf
    cases ht
    simp only [isPtrType, reduceIte] at h
    constructor
    · intro hio
      simp only at hio
      rw [hio] at h
      simp only [Bool.false_eq_true, reduceIte, goElemType] at h
      split at h
      · cases h
      · injection h with hpair
        cases hpair
        exact ⟨_, rfl⟩
    · intro n hn
      simp only at hn
      subst hn
      simp only [isInputObjectType, reduceIte] at h
      split at h
      · cases h
      · rename_i pr b2 elem heq
        injection h with hpair
        cases hpair
        obtain ⟨sp, values, hp, hv, hmk⟩ :=
          makeNonNullPacker_inputObject_ptr_ok env fuel b n pt _ _ heq
        subst hp
        exact ⟨sp, rfl, MakeStructPacker_ptr_usePtr env fuel.pred b values pt _ sp hmk⟩
  · intro env pm ds fuel ty
    rfl
  · intro env pm ds fuel sp
    rfl

/-- Witness for C5 at concrete packers: a nullable Int wrapper over a
pointer target packs null to the nil pointer and 1 to a pointer to 1; the
builder on a pointer-to-int32 target yields an `addPtr` wrapper; and
`ValuePacker`/`StructPacker` reject null. -/
theorem nullPacker_and_nonNull_null_handling_witness :
    Pack recursiveEnv [] [] 3 (.nullPacker (.ValuePacker .int32T) (.ptr .int32T) true) .vnull =
      .ok (.vptr none) ∧
    Pack recursiveEnv [] [] 3 (.nullPacker (.ValuePacker .int32T) (.ptr .int32T) true) (.vint 1) =
      .ok (.vptr (some (.vint32 1))) ∧
    (∃ elem, (Packer.nullPacker (.ValuePacker .int32T) (.ptr .int32T) true) =
        .nullPacker elem (.ptr .int32T) true) ∧
    Pack recursiveEnv [] [] 3 (.ValuePacker .int32T) .vnull = .error "got null for non-null" ∧
    Pack recursiveEnv [] [] 3 (.StructPacker ⟨0, "recursive", false, []⟩) .vnull =
      .error "got null for non-null" := by
  refine ⟨?_, ?_, ?_, ?_, ?_⟩
  · exact nullPacker_and_nonNull_null_handling.1 recursiveEnv [] [] 2
      (.ValuePacker .int32T) (.ptr .int32T) true rfl
  · have h := nullPacker_and_nonNull_null_handling.2.1 recursiveEnv [] [] 2
      (.ValuePacker .int32T) (.ptr .int32T) true (.vint 1) (by simp)
    rw [h]
    rfl
  · have h := nullPacker_and_nonNull_null_handling.2.2.1 recursiveEnv 2
      NewBuilder (.scalar "Int") .int32T NewBuilder
      (.nullPacker (.ValuePacker .int32T) (.ptr .int32T) true) (by rfl) (by rfl)
    exact h.1 (by rfl)
  · exact nullPacker_and_nonNull_null_handling.2.2.2.1 recursiveEnv [] [] 2 .int32T
  · exact nullPacker_and_nonNull_null_handling.2.2.2.2 recursiveEnv [] [] 2
      ⟨0, "recursive", false, []⟩

/-! ## Claim C8: the two-stage packer table and recursive inputs -/

/-- C8: `assignPacker` reserves a map slot on the first visit of a
(GraphQL type, Go type) pair, and every later request for the same pair —
in particular the back-edge of a recursive input object — returns the
existing slot without rebuilding and without touching the map; on the
concrete recursive input type the build therefore terminates, the pair
occupies exactly one slot, every slot is built (so `Finish`, which runs
after the build, write-through-resolves them all), and packing
`recursive(value: \x7bnext: \x7bnext: \x7b\x7d\x7d\x7d)` packs a
three-level chain: the resolver counts 3. -/
theorem assignPacker_two_stage_table :
    (∀ (env : Env) (fuel : Nat) (b : Builder) (st : GqlType) (rt : GoType)
        (e : Option Packer), alookup b.packerMap (st, rt) = some e →
        assignPacker env (fuel+1) b st rt = .ok (b, (st, rt))) ∧
    (MakeStructPacker recursiveEnv 20 NewBuilder recursiveArgsValues
        (.structT "recursiveArgs")).map
      (fun p => (p.1.packerMap.map Prod.fst,
                 p.1.packerMap.all (fun e => e.2.isSome),
                 p.1.structPackers.length)) =
      .ok ([(.inputObject "RecursiveInput", .ptr (.structT "recursive"))], true, 2) ∧
    recursivePipeline = .ok 3 := by
  refine ⟨?_, by rfl, by rfl⟩
  intro env fuel b st rt e h
  rw [assignPacker]
  simp [h]

/-- Witness for C8's reuse part at a concrete builder holding a reserved
slot: the request returns the builder unchanged. -/
theorem assignPacker_two_stage_table_witness :
    assignPacker recursiveEnv 5
      { packerMap := [((.scalar "Int", .int32T), none)], structPackers := [] }
      (.scalar "Int") .int32T =
      .ok ({ packerMap := [((.scalar "Int", .int32T), none)], structPackers := [] },
           (.scalar "Int", .int32T)) :=
  assignPacker_two_stage_table.1 recursiveEnv 4
    { packerMap := [((.scalar "Int", .int32T), none)], structPackers := [] }
    (.scalar "Int") .int32T none rfl

/-! ## Claim C6: the list packer -/

/-- Elementwise characterisation of a successful `mapME`. -/
theorem mapME_ok {alp bet : Type} (f : alp → Except String bet) :
    ∀ (xs : List alp) (ys : List bet), mapME f xs = .ok ys →
      ys.length = xs.length ∧
      ∀ i (h : i < xs.length) (h' : i < ys.length),
        f (xs.get ⟨i, h⟩) = .ok (ys.get ⟨i, h'⟩) := by
  intro xs
  induction xs with
  | nil =>
      intro ys h
      rw [mapME] at h
      injection h with h
      subst h
      exact ⟨rfl, fun i hi _ => absurd hi (Nat.not_lt_zero i)⟩
  | cons x rest ih =>
      intro ys h
      rw [mapME] at h
      cases hfx : f x with
      | error e => rw [hfx] at h; cases h
      | ok y =>
          rw [hfx] at h
          cases hrest : mapME f rest with
          | error e => rw [hrest] at h; cases h
          | ok ys' =>
              rw [hrest] at h
              injection h with h
              subst h
              obtain ⟨hlen, helem⟩ := ih ys' hrest
              refine ⟨by simp [hlen], ?_⟩
              intro i hi hi'
              cases i with
              | zero => simpa using hfx
              | succ j =>
                  simpa using helem j (Nat.lt_of_succ_lt_succ hi) (Nat.lt_of_succ_lt_succ hi')

/-- C6: a list packer packs a JSON array elementwise through the element
packer into a slice of the same length preserving order, and wraps any
non-array input into a singleton list whose one element is packed with the
element packer. -/
theorem listPacker_pack_spec :
    (∀ (env : Env) pm ds (fuel : Nat) (sliceType : GoType) (k : GqlType × GoType)
        (ep : Packer) (xs : List GoVal), resolveKey pm k = some ep →
        Pack env pm ds (fuel+1) (.listPacker sliceType k) (.vlist xs) =
          (mapME (Pack env pm ds fuel ep) xs).map
            (fun ys => .vslice (goElemType sliceType) ys)) ∧
    (∀ (env : Env) pm ds (fuel : Nat) (sliceType : GoType) (k : GqlType × GoType)
        (ep : Packer) (xs ys : List GoVal), resolveKey pm k = some ep →
        Pack env pm ds (fuel+1) (.listPacker sliceType k) (.vlist xs) =
          .ok (.vslice (goElemType sliceType) ys) →
        ys.length = xs.length ∧
        ∀ i (h : i < xs.length) (h' : i < ys.length),
          Pack env pm ds fuel ep (xs.get ⟨i, h⟩) = .ok (ys.get ⟨i, h'⟩)) ∧
    (∀ (env : Env) pm ds (fuel : Nat) (sliceType : GoType) (k : GqlType × GoType)
        (ep : Packer) (v : GoVal), resolveKey pm k = some ep →
        (∀ xs, v ≠ .vlist xs) →
        Pack env pm ds (fuel+1) (.listPacker sliceType k) v =
          (Pack env pm ds fuel ep v).map
            (fun y => .vslice (goElemType sliceType) [y])) := by
  have part1 : ∀ (env : Env) pm ds (fuel : Nat) (sliceType : GoType) (k : GqlType × GoType)
      (ep : Packer) (xs : List GoVal), resolveKey pm k = some ep →
      Pack env pm ds (fuel+1) (.listPacker sliceType k) (.vlist xs) =
        (mapME (Pack env pm ds fuel ep) xs).map
          (fun ys => .vslice (goElemType sliceType) ys) := by
    intro env pm ds fuel sliceType k ep xs hk
    rw [Pack]
    simp only [hk]
    cases hres : mapME (Pack env pm ds fuel ep) xs <;> simp [hres, Except.map]
  refine ⟨part1, ?_, ?_⟩
  · intro env pm ds fuel sliceType k ep xs ys hk h
    rw [part1 env pm ds fuel sliceType k ep xs hk] at h
    cases hres : mapME (Pack env pm ds fuel ep) xs with
    | error e => rw [hres] at h; simp [Except.map] at h
    | ok ys' =>
        rw [hres] at h
        simp only [Except.map] at h
        injection h with h
        injection h with h1 h2
        subst h2
        exact mapME_ok (Pack env pm ds fuel ep) xs ys' hres
  · intro env pm ds fuel sliceType k ep v hk hv
    rw [Pack]
    · simp only [hk]
      have hm : mapME (Pack env pm ds fuel ep) [v] =
          (Pack env pm ds fuel ep v).bind (fun y => .ok [y]) := by
        rw [mapME]
        cases hres : Pack env pm ds fuel ep v <;> simp [hres, mapME, Except.bind]
      cases v <;> try (exact absurd rfl (hv _))
      all_goals (
        rw [hm]
        cases hres : Pack env pm ds fuel ep _ <;>
          simp [hres, Except.map, Except.bind])
    · intro xs hxs
      exact hv xs hxs

/-- Witness for C6 at a concrete Int element packer: a two-element array
packs elementwise in order, the length is preserved, and the scalar 7 is
wrapped into a singleton list. -/
theorem listPacker_pack_spec_witness :
    Pack recursiveEnv [((.scalar "Int", .int32T), some (.ValuePacker .int32T))] [] 3
        (.listPacker (.slice .int32T) (.scalar "Int", .int32T))
        (.vlist [.vint 1, .vint 2]) =
      .ok (.vslice .int32T [.vint32 1, .vint32 2]) ∧
    ([GoVal.vint32 1, GoVal.vint32 2] : List GoVal).length =
      ([GoVal.vint 1, GoVal.vint 2] : List GoVal).length ∧
    Pack recursiveEnv [((.scalar "Int", .int32T), some (.ValuePacker .int32T))] [] 3
        (.listPacker (.slice .int32T) (.scalar "Int", .int32T)) (.vint 7) =
      .ok (.vslice .int32T [.vint32 7]) := by
  have hk : resolveKey [((GqlType.scalar "Int", GoType.int32T), some (Packer.ValuePacker .int32T))]
      (GqlType.scalar "Int", GoType.int32T) = some (.ValuePacker .int32T) := rfl
  refine ⟨?_, ?_, ?_⟩
  · rw [listPacker_pack_spec.1 recursiveEnv _ [] 2 (.slice .int32T) _ _ _ hk]
    rfl
  · exact (listPacker_pack_spec.2.1 recursiveEnv _ [] 2 (.slice .int32T) _ _
      [.vint 1, .vint 2] [.vint32 1, .vint32 2] hk (by
        rw [listPacker_pack_spec.1 recursiveEnv _ [] 2 (.slice .int32T) _ _ _ hk]
        rfl)).1
  · rw [listPacker_pack_spec.2.2 recursiveEnv _ [] 2 (.slice .int32T) _ _ (.vint 7) hk
      (fun xs h => by cases h)]
    rfl

/-! ## Claim C7: build-time checks for argument optionality -/

/-- A non-null declared type bound to a pointer Go field is rejected. -/
theorem makeStructPackerField_nonnull_ptr_error (env : Env) (fuel : Nat) (b : Builder)
    (sfields : List GoField) (v : InputValueDef) (i : Nat) (sf : GoField)
    (hf : fieldByNameFunc sfields v.name = some (i, sf))
    (hex : sf.exported = true)
    (hnn : isNonNullType v.type = true) (hptr : isPtrType sf.type = true) :
    makeStructPackerField env (fuel+1) b sfields v =
      .error ("field " ++ sf.name ++ " must be a non-pointer since the parameter is required") := by
  rw [makeStructPackerField, hf]
  simp [hex, hnn, hptr]

/-- A nullable declared type bound to a Go type that is neither a pointer
nor specially nullable is rejected by `makePacker`. -/
theorem makePacker_nullable_requires_optional (env : Env) (fuel : Nat) (b : Builder)
    (st : GqlType) (rt : GoType)
    (hnn : (unwrapNonNull st).2 = false)
    (hptr : isPtrType rt = false) (hnul : isNullable rt = false) :
    makePacker env (fuel+1) b st rt =
      .error (goTypeString rt ++ " is not a pointer or a nullable type") := by
  rcases hu : unwrapNonNull st with ⟨t, flag⟩
  rw [hu] at hnn
  simp only at hnn
  subst hnn
  rw [makePacker, hu]
  split
  · rename_i heq
    cases heq
  · simp [hptr, hnul]

/-- A field that survived the loop body's checks is exported and not a
non-null parameter on a pointer Go field. -/
theorem makeStructPackerField_ok_not_bad (env : Env) (fuel : Nat) (b : Builder)
    (sfields : List GoField) (v : InputValueDef) (b' : Builder) (fe : structPackerField)
    (h : makeStructPackerField env fuel b sfields v = .ok (b', fe)) :
    ∀ i sf, fieldByNameFunc sfields v.name = some (i, sf) →
      sf.exported = true ∧ ¬(isNonNullType v.type = true ∧ isPtrType sf.type = true) := by
  intro i sf hf
  cases fuel with
  | zero => simp [makeStructPackerField] at h
  | succ fuel =>
      rw [makeStructPackerField, hf] at h
      split at h
      · rename_i heq
        cases heq
      · rename_i i2 sf2 heq
        injection heq with heq
        injection heq with heq1 heq2
        subst heq1
        subst heq2
        by_cases h1 : sf.exported = false
        · rw [if_pos h1] at h
          cases h
        · rw [if_neg h1] at h
          by_cases h2 : isNonNullType v.type = true ∧ isPtrType sf.type = true
          · rw [if_pos h2] at h
            cases h
          · exact ⟨by simpa using h1, h2⟩

/-- Every declared value of a successfully built struct packer passed the
optionality checks. -/
theorem makeStructPackerFields_ok_not_bad (env : Env) :
    ∀ (fuel : Nat) (b : Builder) (sfields : List GoField) (values : List InputValueDef)
      (b' : Builder) (fes : List structPackerField),
      makeStructPackerFields env fuel b sfields values = .ok (b', fes) →
      ∀ v ∈ values, ∀ i sf, fieldByNameFunc sfields v.name = some (i, sf) →
        sf.exported = true ∧ ¬(isNonNullType v.type = true ∧ isPtrType sf.type = true) := by
  intro fuel
  induction fuel with
  | zero =>
      intro b sfields values b' fes h
      simp [makeStructPackerFields] at h
  | succ fuel ih =>
      intro b sfields values b' fes h v hv i sf hf
      cases values with
      | nil => cases hv
      | cons v0 rest =>
          rw [makeStructPackerFields] at h
          split at h
          · cases h
          · split at h
            · cases h
            · injection h with hpair
              cases hpair
              cases hv with
              | head =>
                  exact makeStructPackerField_ok_not_bad env fuel b sfields v _ _
                    (by assumption) i sf hf
              | tail _ hv' =>
                  exact ih _ sfields rest _ _ (by assumption) v hv' i sf hf

/-- C7: at struct-packer build time, a non-null argument whose matching Go
struct field is a pointer is rejected, a nullable argument whose Go type is
neither a pointer nor specially nullable is rejected, and consequently on
every successful build each declared argument is bound to an exported field
that is non-optional exactly when the argument is non-null. -/
theorem build_rejects_wrong_optionality :
    (∀ (env : Env) (fuel : Nat) (b : Builder) (sfields : List GoField)
        (v : InputValueDef) (i : Nat) (sf : GoField),
        fieldByNameFunc sfields v.name = some (i, sf) →
        sf.exported = true →
        isNonNullType v.type = true → isPtrType sf.type = true →
        makeStructPackerField env (fuel+1) b sfields v =
          .error ("field " ++ sf.name ++
            " must be a non-pointer since the parameter is required")) ∧
    (∀ (env : Env) (fuel : Nat) (b : Builder) (st : GqlType) (rt : GoType),
        (unwrapNonNull st).2 = false →
        isPtrType rt = false → isNullable rt = false →
        makePacker env (fuel+1) b st rt =
          .error (goTypeString rt ++ " is not a pointer or a nullable type")) ∧
    (∀ (env : Env) (fuel : Nat) (b : Builder) (sfields : List GoField)
        (values : List InputValueDef) (b' : Builder) (fes : List structPackerField),
        makeStructPackerFields env fuel b sfields values = .ok (b', fes) →
        ∀ v ∈ values, ∀ i sf, fieldByNameFunc sfields v.name = some (i, sf) →
          sf.exported = true ∧
          ¬(isNonNullType v.type = true ∧ isPtrType sf.type = true)) :=
  ⟨makeStructPackerField_nonnull_ptr_error,
   makePacker_nullable_requires_optional,
   makeStructPackerFields_ok_not_bad⟩

/-- Witness for C7: the non-null Int argument on a pointer field errors,
the nullable Int argument on a plain `int32` member errors, and a
successful one-field build satisfies the optionality condition. -/
theorem build_rejects_wrong_optionality_witness :
    makeStructPackerField recursiveEnv 6 NewBuilder
      [{ name := "Value", type := .ptr .int32T, exported := true }]
      { name := "value", type := .nonNull (.scalar "Int"), default := none } =
      .error "field Value must be a non-pointer since the parameter is required" ∧
    makePacker recursiveEnv 6 NewBuilder (.scalar "Int") .int32T =
      .error "int32 is not a pointer or a nullable type" ∧
    ((GoField.mk "V" .int32T true).exported = true ∧
      ¬(isNonNullType (GqlType.nonNull (.scalar "Int")) = true ∧
        isPtrType GoType.int32T = true)) := by
  refine ⟨?_, ?_, ?_⟩
  · exact build_rejects_wrong_optionality.1 recursiveEnv 5 NewBuilder _ _ 0
      { name := "Value", type := .ptr .int32T, exported := true } rfl rfl rfl rfl
  · exact build_rejects_wrong_optionality.2.1 recursiveEnv 5 NewBuilder
      (.scalar "Int") .int32T rfl rfl rfl
  · have h : makeStructPackerFields recursiveEnv 5 NewBuilder
        [{ name := "V", type := .int32T, exported := true }]
        [{ name := "v", type := .nonNull (.scalar "Int"), default := none }] =
        .ok ({ packerMap := [((.nonNull (.scalar "Int"), .int32T),
                              some (.ValuePacker .int32T))],
               structPackers := [] },
             [{ name := "v", index := 0, fdef := none,
                key := (.nonNull (.scalar "Int"), .int32T) }]) := by rfl
    exact build_rejects_wrong_optionality.2.2 recursiveEnv 5 NewBuilder _ _ _ _ h
      { name := "v", type := .nonNull (.scalar "Int"), default := none }
      (List.Mem.head _) 0 (GoField.mk "V" .int32T true) rfl

/-! ## Struct field writes: helper lemmas for C4 and C10 -/

/-- Read position `i` of a struct value's field list
(`FieldByIndex` as a read). -/
def getFieldAt : GoVal → Nat → Option GoVal
  | .vstruct _ fs, i => (fs[i]?).map Prod.snd
  | _, _ => none

/-- Writing a field list preserves its length. -/
theorem setFieldList_length (x : GoVal) :
    ∀ (fs : List (String × GoVal)) (i : Nat), (setFieldList fs i x).length = fs.length := by
  intro fs
  induction fs with
  | nil => intro i; rfl
  | cons f rest ih =>
      intro i
      cases i with
      | zero => cases f; rfl
      | succ j => simp [setFieldList, ih j]

/-- Writing one position leaves the others unchanged. -/
theorem setFieldList_get_other (x : GoVal) :
    ∀ (fs : List (String × GoVal)) (i j : Nat), j ≠ i →
      (setFieldList fs i x)[j]? = fs[j]? := by
  intro fs
  induction fs with
  | nil => intro i j _; rfl
  | cons f rest ih =>
      intro i j hj
      cases i with
      | zero =>
          cases f
          cases j with
          | zero => exact absurd rfl hj
          | succ j' => simp [setFieldList]
      | succ i' =>
          cases j with
          | zero => simp [setFieldList]
          | succ j' =>
              simpa [setFieldList] using ih i' j' (fun hc => hj (by rw [hc]))

/-- Writing an in-range position stores the value there. -/
theorem setFieldList_get_same (x : GoVal) :
    ∀ (fs : List (String × GoVal)) (i : Nat), i < fs.length →
      ((setFieldList fs i x)[i]?).map Prod.snd = some x := by
  intro fs
  induction fs with
  | nil => intro i hi; cases hi
  | cons f rest ih =>
      intro i hi
      cases i with
      | zero => cases f; simp [setFieldList]
      | succ j => simpa [setFieldList] using ih j (Nat.lt_of_succ_lt_succ hi)

/-- `setStructField` on a struct value, spelled out. -/
theorem setStructField_vstruct (nm : String) (fs : List (String × GoVal)) (i : Nat) (x : GoVal) :
    setStructField (.vstruct nm fs) i x = .vstruct nm (setFieldList fs i x) := rfl

/-- A field write does not change the other indices of any value. -/
theorem getFieldAt_setStructField_other (acc : GoVal) (i j : Nat) (x : GoVal) (hj : j ≠ i) :
    getFieldAt (setStructField acc i x) j = getFieldAt acc j := by
  cases acc <;> simp only [setStructField, getFieldAt]
  rw [setFieldList_get_other x _ i j hj]

/-- A field write to an in-range index of a struct stores the value. -/
theorem getFieldAt_setStructField_same (nm : String) (fs : List (String × GoVal))
    (i : Nat) (x : GoVal) (hi : i < fs.length) :
    getFieldAt (setStructField (.vstruct nm fs) i x) i = some x := by
  simp only [setStructField, getFieldAt]
  exact setFieldList_get_same x fs i hi

/-- One iteration of `StructPacker.Pack`'s loop over the fields: a field
present in the input map is packed with its map-resolved packer and written
at its index; an absent field leaves the struct unchanged. -/
def structPackStep (env : Env) (pm : List ((GqlType × GoType) × Option Packer))
    (ds : List (Nat × GoVal)) (fuel : Nat) (values : List (String × GoVal))
    (acc : GoVal) (f : structPackerField) : Except String GoVal :=
  match alookup values f.name with
  | none => .ok acc
  | some fv =>
      match resolveKey pm f.key with
      | none => .error "pack: nil field packer"
      | some fp =>
          match Pack env pm ds fuel fp fv with
          | .error e => .error e
          | .ok packed => .ok (setStructField acc f.index packed)

/-- `StructPacker.Pack` on a map is the fields fold from the prototype. -/
theorem Pack_structPacker_eq (env : Env) (pm : List ((GqlType × GoType) × Option Packer))
    (ds : List (Nat × GoVal)) (fuel : Nat) (sp : StructPacker)
    (values : List (String × GoVal)) :
    Pack env pm ds (fuel+1) (.StructPacker sp) (.vmap values) =
      (match alookup ds sp.id with
       | none => .error "pack: defaultStruct is the invalid reflect.Value (Finish has not run)"
       | some proto =>
           match foldME (structPackStep env pm ds fuel values) proto sp.fields with
           | .error e => .error e
           | .ok w => .ok (if sp.usePtr then .vptr (some w) else w)) := rfl

/-- One iteration of `Finish`'s defaults loop: a defaulted field's default
value is packed with the field's packer and written at its index. -/
def finishStep (env : Env) (pm : List ((GqlType × GoType) × Option Packer))
    (ds : List (Nat × GoVal)) (fuel : Nat)
    (acc : GoVal) (f : structPackerField) : Except String GoVal :=
  match f.fdef with
  | none => .ok acc
  | some defaultVal =>
      match resolveKey pm f.key with
      | none => .error "finish: nil field packer"
      | some fp =>
          match Pack env pm ds fuel fp defaultVal with
          | .error e => .error e
          | .ok v => .ok (setStructField acc f.index v)

/-- `Finish`'s per-struct pass is the defaults fold from the zero struct. -/
theorem finishDefaultStruct_eq (env : Env) (pm : List ((GqlType × GoType) × Option Packer))
    (ds : List (Nat × GoVal)) (fuel : Nat) (sp : StructPacker) :
    finishDefaultStruct env pm ds fuel sp =
      foldME (finishStep env pm ds fuel)
        (zeroVal env fuel (.structT sp.structType)) sp.fields := rfl

/-- Both loops' steps either keep the struct or write the field's index. -/
def WritesAtIndex (step : GoVal → structPackerField → Except String GoVal) : Prop :=
  ∀ acc f r, step acc f = .ok r → r = acc ∨ ∃ x, r = setStructField acc f.index x

theorem structPackStep_writes (env : Env) (pm : List ((GqlType × GoType) × Option Packer))
    (ds : List (Nat × GoVal)) (fuel : Nat) (values : List (String × GoVal)) :
    WritesAtIndex (structPackStep env pm ds fuel values) := by
  intro acc f r h
  rw [structPackStep] at h
  split at h
  · injection h with h
    exact Or.inl h.symm
  · split at h
    · cases h
    · split at h
      · cases h
      · injection h with h
        exact Or.inr ⟨_, h.symm⟩

theorem finishStep_writes (env : Env) (pm : List ((GqlType × GoType) × Option Packer))
    (ds : List (Nat × GoVal)) (fuel : Nat) :
    WritesAtIndex (finishStep env pm ds fuel) := by
  intro acc f r h
  rw [finishStep] at h
  split at h
  · injection h with h
    exact Or.inl h.symm
  · split at h
    · cases h
    · split at h
      · cases h
      · injection h with h
        exact Or.inr ⟨_, h.symm⟩

/-- A fold of index-writing steps leaves unlisted indices unchanged. -/
theorem foldME_untouched (step : GoVal → structPackerField → Except String GoVal)
    (hw : WritesAtIndex step) :
    ∀ (fs : List structPackerField) (acc w : GoVal) (i : Nat),
      (∀ f ∈ fs, f.index ≠ i) →
      foldME step acc fs = .ok w → getFieldAt w i = getFieldAt acc i := by
  intro fs
  induction fs with
  | nil =>
      intro acc w i _ h
      rw [foldME] at h
      injection h with h
      subst h
      rfl
  | cons f rest ih =>
      intro acc w i hi h
      rw [foldME] at h
      cases hst : step acc f with
      | error e => rw [hst] at h; cases h
      | ok acc2 =>
          rw [hst] at h
          have h2 := ih acc2 w i (fun g hg => hi g (List.mem_cons_of_mem f hg)) h
          rw [h2]
          rcases hw acc f acc2 hst with heq | ⟨x, heq⟩
          · rw [heq]
          · rw [heq]
            exact getFieldAt_setStructField_other acc f.index i x
              (fun hc => hi f (List.mem_cons_self f rest) hc.symm)

/-- A fold of index-writing steps keeps the struct's name and field count. -/
theorem foldME_shape (step : GoVal → structPackerField → Except String GoVal)
    (hw : WritesAtIndex step) :
    ∀ (fs : List structPackerField) (nm : String) (flds : List (String × GoVal)) (w : GoVal),
      foldME step (.vstruct nm flds) fs = .ok w →
      ∃ flds', w = .vstruct nm flds' ∧ flds'.length = flds.length := by
  intro fs
  induction fs with
  | nil =>
      intro nm flds w h
      rw [foldME] at h
      injection h with h
      subst h
      exact ⟨flds, rfl, rfl⟩
  | cons f rest ih =>
      intro nm flds w h
      rw [foldME] at h
      cases hst : step (.vstruct nm flds) f with
      | error e => rw [hst] at h; cases h
      | ok acc2 =>
          rw [hst] at h
          rcases hw _ f acc2 hst with heq | ⟨x, heq⟩
          · rw [heq] at h
            exact ih nm flds w h
          · rw [heq, setStructField_vstruct] at h
            obtain ⟨flds', hw', hl⟩ := ih nm _ w h
            exact ⟨flds', hw', by rw [hl, setFieldList_length]⟩

/-- Characterisation of `StructPacker.Pack`'s fold: with pairwise-distinct,
in-range field indices, a field absent from the input map keeps the
prototype's value and a present field holds its packed value. -/
theorem structPack_fold_fields (env : Env) (pm : List ((GqlType × GoType) × Option Packer))
    (ds : List (Nat × GoVal)) (fuel : Nat) (values : List (String × GoVal)) :
    ∀ (fs : List structPackerField) (nm : String) (flds : List (String × GoVal)) (w : GoVal),
      List.Pairwise (fun a b => a.index ≠ b.index) fs →
      (∀ f ∈ fs, f.index < flds.length) →
      foldME (structPackStep env pm ds fuel values) (.vstruct nm flds) fs = .ok w →
      ∀ f ∈ fs,
        (alookup values f.name = none →
          getFieldAt w f.index = getFieldAt (.vstruct nm flds) f.index) ∧
        (∀ fv, alookup values f.name = some fv →
          ∃ fp packed, resolveKey pm f.key = some fp ∧
            Pack env pm ds fuel fp fv = .ok packed ∧
            getFieldAt w f.index = some packed) := by
  intro fs
  induction fs with
  | nil => intro nm flds w _ _ _ f hf; cases hf
  | cons f0 rest ih =>
      intro nm flds w hpw hbound h f hf
      rw [foldME] at h
      obtain ⟨hne, hpw'⟩ := List.pairwise_cons.mp hpw
      cases hlv : alookup values f0.name with
      | none =>
          have hstep : structPackStep env pm ds fuel values (.vstruct nm flds) f0 =
              .ok (.vstruct nm flds) := by rw [structPackStep, hlv]
          rw [hstep] at h
          cases hf with
          | head =>
              refine ⟨fun _ => ?_, fun fv hfv => absurd (hlv.symm.trans hfv) (by simp)⟩
              exact foldME_untouched _ (structPackStep_writes env pm ds fuel values)
                rest _ w f0.index (fun g hg => (hne g hg).symm) h
          | tail _ hf' =>
              exact ih nm flds w hpw' (fun g hg => hbound g (List.mem_cons_of_mem f0 hg)) h
                f hf'
      | some fv0 =>
          rw [structPackStep, hlv] at h
          simp only [] at h
          cases hrk : resolveKey pm f0.key with
          | none => rw [hrk] at h; simp only [] at h; cases h
          | some fp0 =>
              rw [hrk] at h
              simp only [] at h
              cases hpk : Pack env pm ds fuel fp0 fv0 with
              | error e => rw [hpk] at h; simp only [] at h; cases h
              | ok packed0 =>
                  rw [hpk] at h
                  simp only [] at h
                  rw [setStructField_vstruct] at h
                  have hb0 : f0.index < flds.length := hbound f0 (List.mem_cons_self f0 rest)
                  cases hf with
                  | head =>
                      refine ⟨fun habs => absurd (hlv.symm.trans habs) (by simp), ?_⟩
                      intro fv hfv
                      have hfv0 : fv = fv0 := by
                        have := hlv.symm.trans hfv
                        injection this with this
                        exact this.symm
                      subst hfv0
                      refine ⟨fp0, packed0, hrk, hpk, ?_⟩
                      have huntouched := foldME_untouched _
                        (structPackStep_writes env pm ds fuel values) rest _ w f0.index
                        (fun g hg => (hne g hg).symm) h
                      rw [huntouched]
                      have : getFieldAt (.vstruct nm (setFieldList flds f0.index packed0))
                          f0.index = some packed0 := by
                        rw [← setStructField_vstruct]
                        exact getFieldAt_setStructField_same nm flds f0.index packed0 hb0
                      exact this
                  | tail _ hf' =>
                      have hbound' : ∀ g ∈ rest, g.index <
                          (setFieldList flds f0.index packed0).length := by
                        intro g hg
                        rw [setFieldList_length]
                        exact hbound g (List.mem_cons_of_mem f0 hg)
                      have hres := ih nm _ w hpw' hbound' h f hf'
                      refine ⟨fun habs => ?_, fun fv hfv => (hres.2 fv hfv)⟩
                      rw [hres.1 habs]
                      have hf_ne : f.index ≠ f0.index := by
                        intro hc
                        exact (hne f hf') hc.symm
                      calc getFieldAt (.vstruct nm (setFieldList flds f0.index packed0)) f.index
                          = getFieldAt (setStructField (.vstruct nm flds) f0.index packed0)
                              f.index := by rw [setStructField_vstruct]
                        _ = getFieldAt (.vstruct nm flds) f.index :=
                            getFieldAt_setStructField_other _ f0.index f.index packed0 hf_ne

/-- Characterisation of `Finish`'s defaults fold: with pairwise-distinct,
in-range field indices, a field without a default keeps the zero struct's
value and a defaulted field holds its packed default value. -/
theorem finish_fold_fields (env : Env) (pm : List ((GqlType × GoType) × Option Packer))
    (ds : List (Nat × GoVal)) (fuel : Nat) :
    ∀ (fs : List structPackerField) (nm : String) (flds : List (String × GoVal)) (w : GoVal),
      List.Pairwise (fun a b => a.index ≠ b.index) fs →
      (∀ f ∈ fs, f.index < flds.length) →
      foldME (finishStep env pm ds fuel) (.vstruct nm flds) fs = .ok w →
      ∀ f ∈ fs,
        (f.fdef = none → getFieldAt w f.index = getFieldAt (.vstruct nm flds) f.index) ∧
        (∀ d, f.fdef = some d →
          ∃ fp v, resolveKey pm f.key = some fp ∧
            Pack env pm ds fuel fp d = .ok v ∧
            getFieldAt w f.index = some v) := by
  intro fs
  induction fs with
  | nil => intro nm flds w _ _ _ f hf; cases hf
  | cons f0 rest ih =>
      intro nm flds w hpw hbound h f hf
      rw [foldME] at h
      obtain ⟨hne, hpw'⟩ := List.pairwise_cons.mp hpw
      cases hdf : f0.fdef with
      | none =>
          have hstep : finishStep env pm ds fuel (.vstruct nm flds) f0 =
              .ok (.vstruct nm flds) := by rw [finishStep, hdf]
          rw [hstep] at h
          cases hf with
          | head =>
              refine ⟨fun _ => ?_, fun d hd => absurd (hdf.symm.trans hd) (by simp)⟩
              exact foldME_untouched _ (finishStep_writes env pm ds fuel)
                rest _ w f0.index (fun g hg => (hne g hg).symm) h
          | tail _ hf' =>
              exact ih nm flds w hpw' (fun g hg => hbound g (List.mem_cons_of_mem f0 hg)) h
                f hf'
      | some d0 =>
          rw [finishStep, hdf] at h
          simp only [] at h
          cases hrk : resolveKey pm f0.key with
          | none => rw [hrk] at h; simp only [] at h; cases h
          | some fp0 =>
              rw [hrk] at h
              simp only [] at h
              cases hpk : Pack env pm ds fuel fp0 d0 with
              | error e => rw [hpk] at h; simp only [] at h; cases h
              | ok v0 =>
                  rw [hpk] at h
                  simp only [] at h
                  rw [setStructField_vstruct] at h
                  have hb0 : f0.index < flds.length := hbound f0 (List.mem_cons_self f0 rest)
                  cases hf with
                  | head =>
                      refine ⟨fun habs => absurd (hdf.symm.trans habs) (by simp), ?_⟩
                      intro d hd
                      have hd0 : d = d0 := by
                        have := hdf.symm.trans hd
                        injection this with this
                        exact this.symm
                      subst hd0
                      refine ⟨fp0, v0, hrk, hpk, ?_⟩
                      have huntouched := foldME_untouched _
                        (finishStep_writes env pm ds fuel) rest _ w f0.index
                        (fun g hg => (hne g hg).symm) h
                      rw [huntouched]
                      rw [← setStructField_vstruct]
                      exact getFieldAt_setStructField_same nm flds f0.index v0 hb0
                  | tail _ hf' =>
                      have hbound' : ∀ g ∈ rest, g.index <
                          (setFieldList flds f0.index v0).length := by
                        intro g hg
                        rw [setFieldList_length]
                        exact hbound g (List.mem_cons_of_mem f0 hg)
                      have hres := ih nm _ w hpw' hbound' h f hf'
                      refine ⟨fun habs => ?_, fun d hd => (hres.2 d hd)⟩
                      rw [hres.1 habs]
                      have hf_ne : f.index ≠ f0.index := by
                        intro hc
                        exact (hne f hf') hc.symm
                      calc getFieldAt (.vstruct nm (setFieldList flds f0.index v0)) f.index
                          = getFieldAt (setStructField (.vstruct nm flds) f0.index v0)
                              f.index := by rw [setStructField_vstruct]
                        _ = getFieldAt (.vstruct nm flds) f.index :=
                            getFieldAt_setStructField_other _ f0.index f.index v0 hf_ne

/-- `Finish` only appends to the accumulated defaults table. -/
theorem Finish_mem_acc (env : Env) (pm : List ((GqlType × GoType) × Option Packer))
    (fuel : Nat) :
    ∀ (sps : List StructPacker) (acc ds' : List (Nat × GoVal)),
      Finish env pm fuel sps acc = .ok ds' → ∀ p ∈ acc, p ∈ ds' := by
  intro sps
  induction sps with
  | nil =>
      intro acc ds' h p hp
      rw [Finish] at h
      injection h with h
      subst h
      exact hp
  | cons sp rest ih =>
      intro acc ds' h p hp
      rw [Finish] at h
      split at h
      · cases h
      · exact ih _ ds' h p (List.mem_append_left _ hp)

/-- Every struct packer processed by a successful `Finish` received a
prototype from its defaults pass, recorded in the resulting table. -/
theorem Finish_populates (env : Env) (pm : List ((GqlType × GoType) × Option Packer))
    (fuel : Nat) :
    ∀ (sps : List StructPacker) (acc ds' : List (Nat × GoVal)),
      Finish env pm fuel sps acc = .ok ds' →
      ∀ sp ∈ sps, ∃ dsB proto, finishDefaultStruct env pm dsB fuel sp = .ok proto ∧
        (sp.id, proto) ∈ ds' := by
  intro sps
  induction sps with
  | nil => intro acc ds' h sp hsp; cases hsp
  | cons sp0 rest ih =>
      intro acc ds' h sp hsp
      rw [Finish] at h
      cases hfd : finishDefaultStruct env pm acc fuel sp0 with
      | error e => rw [hfd] at h; simp only [] at h; cases h
      | ok proto =>
          rw [hfd] at h
          simp only [] at h
          cases hsp with
          | head =>
              refine ⟨acc, proto, hfd, ?_⟩
              exact Finish_mem_acc env pm fuel rest _ ds' h _
                (List.mem_append_right _ (List.mem_singleton.mpr rfl))
          | tail _ hsp' => exact ih _ ds' h sp hsp'

/-- C4: `StructPacker.Pack` starts from the pre-built default prototype,
every field present in the input map is packed with its packer and
overrides the prototype, every absent field keeps the prototype's value;
the prototype itself does not exist until `Finish` runs (packing fails
before), and `Finish` fills it with the packed default values over the
zero struct. -/
theorem structPacker_default_prototype :
    (∀ (env : Env) pm (fuel : Nat) (sp : StructPacker) (values : List (String × GoVal)),
        Pack env pm [] (fuel+1) (.StructPacker sp) (.vmap values) =
          .error "pack: defaultStruct is the invalid reflect.Value (Finish has not run)") ∧
    (∀ (env : Env) pm ds (fuel : Nat) (sp : StructPacker) (values : List (String × GoVal))
        (nm : String) (flds : List (String × GoVal)) (w : GoVal),
        alookup ds sp.id = some (.vstruct nm flds) →
        List.Pairwise (fun a b => a.index ≠ b.index) sp.fields →
        (∀ f ∈ sp.fields, f.index < flds.length) →
        Pack env pm ds (fuel+1) (.StructPacker sp) (.vmap values) = .ok w →
        ∃ w0, w = (if sp.usePtr then .vptr (some w0) else w0) ∧
          foldME (structPackStep env pm ds fuel values) (.vstruct nm flds) sp.fields =
            .ok w0 ∧
          ∀ f ∈ sp.fields,
            (alookup values f.name = none →
              getFieldAt w0 f.index = getFieldAt (.vstruct nm flds) f.index) ∧
            (∀ fv, alookup values f.name = some fv →
              ∃ fp packed, resolveKey pm f.key = some fp ∧
                Pack env pm ds fuel fp fv = .ok packed ∧
                getFieldAt w0 f.index = some packed)) ∧
    (∀ (env : Env) pm (fuel : Nat) (sps : List StructPacker) (acc ds' : List (Nat × GoVal)),
        Finish env pm fuel sps acc = .ok ds' →
        ∀ sp ∈ sps, ∃ dsB proto, finishDefaultStruct env pm dsB fuel sp = .ok proto ∧
          (sp.id, proto) ∈ ds') ∧
    (∀ (env : Env) pm ds (fuel : Nat) (sp : StructPacker) (nm : String)
        (flds : List (String × GoVal)) (proto : GoVal),
        zeroVal env fuel (.structT sp.structType) = .vstruct nm flds →
        List.Pairwise (fun a b => a.index ≠ b.index) sp.fields →
        (∀ f ∈ sp.fields, f.index < flds.length) →
        finishDefaultStruct env pm ds fuel sp = .ok proto →
        ∀ f ∈ sp.fields,
          (f.fdef = none →
            getFieldAt proto f.index = getFieldAt (.vstruct nm flds) f.index) ∧
          (∀ d, f.fdef = some d →
            ∃ fp v, resolveKey pm f.key = some fp ∧
              Pack env pm ds fuel fp d = .ok v ∧
              getFieldAt proto f.index = some v)) := by
  refine ⟨?_, ?_, Finish_populates, ?_⟩
  · intro env pm fuel sp values
    rfl
  · intro env pm ds fuel sp values nm flds w hds hpw hbound hpack
    rw [Pack_structPacker_eq, hds] at hpack
    simp only [] at hpack
    cases hfold : foldME (structPackStep env pm ds fuel values) (.vstruct nm flds) sp.fields with
    | error e => rw [hfold] at hpack; simp only [] at hpack; cases hpack
    | ok w0 =>
        rw [hfold] at hpack
        simp only [] at hpack
        injection hpack with hpack
        exact ⟨w0, hpack.symm, rfl,
          structPack_fold_fields env pm ds fuel values sp.fields nm flds w0 hpw hbound hfold⟩
  · intro env pm ds fuel sp nm flds proto hzero hpw hbound hfd
    rw [finishDefaultStruct_eq, hzero] at hfd
    exact finish_fold_fields env pm ds fuel sp.fields nm flds proto hpw hbound hfd

/-! ## Default-value fixtures (a String argument with default "world") -/

/-- Environment with `args struct \x7b Name string \x7d` for a declared
argument `name: String = "world"`. -/
def helloEnv : Env :=
  { goStructs := [("helloArgs", [{ name := "Name", type := .stringT, exported := true }])],
    inputObjects := [] }

/-- The struct packer the builder produces for that argument: the default
forces the non-null version of the declared type into the field's key. -/
def helloSP : StructPacker :=
  { id := 0, structType := "helloArgs", usePtr := false,
    fields := [{ name := "name", index := 0, fdef := some (.vstring none "world"),
                 key := (.nonNull (.scalar "String"), .stringT) }] }

/-- The finished packer map of that build. -/
def helloPM : List ((GqlType × GoType) × Option Packer) :=
  [((.nonNull (.scalar "String"), .stringT), some (.ValuePacker .stringT))]

/-- The defaults table `Finish` produces for that build. -/
def helloDS : List (Nat × GoVal) :=
  [(0, .vstruct "helloArgs" [("Name", .vstring none "world")])]

/-- Witness for C4: the fixture is exactly what the builder constructs;
packing before `Finish` fails; after `Finish` the absent field keeps the
packed default "world" and a present field overrides it; `Finish`
populated the prototype from the zero struct. -/
theorem structPacker_default_prototype_witness :
    MakeStructPacker helloEnv 10 NewBuilder
        [{ name := "name", type := .scalar "String", default := some (.vstring none "world") }]
        (.structT "helloArgs") =
      .ok ({ packerMap := helloPM, structPackers := [helloSP] }, helloSP) ∧
    Pack helloEnv helloPM [] 3 (.StructPacker helloSP) (.vmap []) =
      .error "pack: defaultStruct is the invalid reflect.Value (Finish has not run)" ∧
    Finish helloEnv helloPM 5 [helloSP] [] = .ok helloDS ∧
    (∃ w0, (GoVal.vstruct "helloArgs" [("Name", .vstring none "bob")]) =
        (if helloSP.usePtr then .vptr (some w0) else w0) ∧
      foldME (structPackStep helloEnv helloPM helloDS 2 [("name", .vstring none "bob")])
          (.vstruct "helloArgs" [("Name", .vstring none "world")]) helloSP.fields = .ok w0 ∧
      ∀ f ∈ helloSP.fields,
        (alookup [("name", GoVal.vstring none "bob")] f.name = none →
          getFieldAt w0 f.index =
            getFieldAt (.vstruct "helloArgs" [("Name", .vstring none "world")]) f.index) ∧
        (∀ fv, alookup [("name", GoVal.vstring none "bob")] f.name = some fv →
          ∃ fp packed, resolveKey helloPM f.key = some fp ∧
            Pack helloEnv helloPM helloDS 2 fp fv = .ok packed ∧
            getFieldAt w0 f.index = some packed)) ∧
    (∃ dsB proto, finishDefaultStruct helloEnv helloPM dsB 5 helloSP = .ok proto ∧
        (helloSP.id, proto) ∈ helloDS) ∧
    (∀ d, (some (GoVal.vstring none "world") : Option GoVal) = some d →
      ∃ fp v, resolveKey helloPM (.nonNull (.scalar "String"), .stringT) = some fp ∧
        Pack helloEnv helloPM [] 5 fp d = .ok v ∧
        getFieldAt (.vstruct "helloArgs" [("Name", .vstring none "world")]) 0 = some v) := by
  refine ⟨by rfl, ?_, by rfl, ?_, ?_, ?_⟩
  · exact structPacker_default_prototype.1 helloEnv helloPM 2 helloSP []
  · exact structPacker_default_prototype.2.1 helloEnv helloPM helloDS 2 helloSP
      [("name", .vstring none "bob")] "helloArgs" [("Name", .vstring none "world")]
      (.vstruct "helloArgs" [("Name", .vstring none "bob")])
      rfl (List.pairwise_singleton _ _)
      (by intro f hf; simp only [helloSP, List.mem_singleton] at hf; subst hf; decide)
      (by rfl)
  · exact structPacker_default_prototype.2.2.1 helloEnv helloPM 5 [helloSP] [] helloDS
      (by rfl) helloSP (List.Mem.head _)
  · have h := structPacker_default_prototype.2.2.2 helloEnv helloPM [] 5 helloSP
      "helloArgs" [("Name", .vstring none "")]
      (.vstruct "helloArgs" [("Name", .vstring none "world")])
      rfl (List.pairwise_singleton _ _)
      (by intro f hf; simp only [helloSP, List.mem_singleton] at hf; subst hf; decide)
      (by rfl)
    exact (h _ (List.Mem.head _)).2

/-! ## Claim C10: defaulted fields and the non-null packer -/

/-- The nullable-wrapper test on packers. -/
def isNullPackerB : Packer → Bool
  | .nullPacker _ _ _ => true
  | _ => false

/-- `assignPacker` returns the key it was asked for. -/
theorem assignPacker_key (env : Env) (fuel : Nat) (b : Builder) (st : GqlType)
    (rt : GoType) (b' : Builder) (k : GqlType × GoType)
    (h : assignPacker env fuel b st rt = .ok (b', k)) : k = (st, rt) := by
  cases fuel with
  | zero => simp [assignPacker] at h
  | succ fuel =>
      rw [assignPacker] at h
      split at h
      · injection h with hpair
        cases hpair
        rfl
      · simp only [] at h
        split at h
        · cases h
        · injection h with hpair
          cases hpair
          rfl

/-- `makeNonNullPacker` never returns the nullable wrapper. -/
theorem makeNonNullPacker_not_nullPacker (env : Env) (fuel : Nat) (b : Builder)
    (t : GqlType) (rt : GoType) (b' : Builder) (p : Packer)
    (h : makeNonNullPacker env fuel b t rt = .ok (b', p)) : isNullPackerB p = false := by
  cases fuel with
  | zero => simp [makeNonNullPacker] at h
  | succ fuel =>
      cases t with
      | scalar n =>
          rw [makeNonNullPacker] at h
          split at h
          · split_ifs at h
            injection h with hpair
            cases hpair
            rfl
          · injection h with hpair
            cases hpair
            rfl
      | enum n =>
          rw [makeNonNullPacker] at h
          split at h
          · split_ifs at h
            injection h with hpair
            cases hpair
            rfl
          · split at h
            · injection h with hpair
              cases hpair
              rfl
            · cases h
      | inputObject n =>
          rw [makeNonNullPacker] at h
          split at h
          · split_ifs at h
            injection h with hpair
            cases hpair
            rfl
          · split at h
            · cases h
            · split at h
              · cases h
              · injection h with hpair
                cases hpair
                rfl
      | list ofT =>
          rw [makeNonNullPacker] at h
          split at h
          · split_ifs at h
            injection h with hpair
            cases hpair
            rfl
          · split_ifs at h
            split at h
            · cases h
            · injection h with hpair
              cases hpair
              rfl
      | object n =>
          rw [makeNonNullPacker] at h
          split at h
          · split_ifs at h
            injection h with hpair
            cases hpair
            rfl
          · cases h
      | nonNull t2 =>
          rw [makeNonNullPacker] at h
          split at h
          · split_ifs at h
            injection h with hpair
            cases hpair
            rfl
          · cases h

/-- C10 (amended): a declared default makes the builder request the packer
for the non-null version of the field's declared type, and the packer built
for a non-null type is never the nullable wrapper. Packing an explicitly
supplied null for such a field is a pack error when the field's packer is
the built-in value packer or a struct packer, while a list packer wraps the
null into a singleton list instead; an absent field keeps the prototype's
(packed default) value. -/
theorem defaulted_fields_nonnull_packer :
    (∀ (env : Env) (fuel : Nat) (b : Builder) (sfields : List GoField)
        (v : InputValueDef) (b' : Builder) (fe : structPackerField),
        v.default.isSome = true →
        makeStructPackerField env (fuel+1) b sfields v = .ok (b', fe) →
        fe.key.1 = .nonNull (unwrapNonNull v.type).1 ∧ fe.fdef = v.default) ∧
    (∀ (env : Env) (fuel : Nat) (b : Builder) (t : GqlType) (rt : GoType)
        (b' : Builder) (p : Packer),
        makePacker env (fuel+1) b (.nonNull t) rt = .ok (b', p) →
        isNullPackerB p = false) ∧
    (∀ (env : Env) pm ds (fuel : Nat) (ty : GoType),
        Pack env pm ds (fuel+1) (.ValuePacker ty) .vnull =
          .error "got null for non-null") ∧
    (∀ (env : Env) pm ds (fuel : Nat) (sp : StructPacker),
        Pack env pm ds (fuel+1) (.StructPacker sp) .vnull =
          .error "got null for non-null") ∧
    (∀ (env : Env) pm ds (fuel : Nat) (sliceType : GoType) (k : GqlType × GoType)
        (ep : Packer), resolveKey pm k = some ep →
        Pack env pm ds (fuel+1) (.listPacker sliceType k) .vnull =
          (Pack env pm ds fuel ep .vnull).map
            (fun y => .vslice (goElemType sliceType) [y])) ∧
    (∀ (env : Env) pm ds (fuel : Nat) (values : List (String × GoVal))
        (fs : List structPackerField) (nm : String) (flds : List (String × GoVal))
        (w0 : GoVal) (f : structPackerField),
        List.Pairwise (fun a b => a.index ≠ b.index) fs →
        (∀ g ∈ fs, g.index < flds.length) →
        foldME (structPackStep env pm ds fuel values) (.vstruct nm flds) fs = .ok w0 →
        f ∈ fs → alookup values f.name = none →
        getFieldAt w0 f.index = getFieldAt (.vstruct nm flds) f.index) := by
  refine ⟨?_, ?_, ?_, ?_, ?_, ?_⟩
  · intro env fuel b sfields v b' fe hsome h
    obtain ⟨d, hd⟩ := Option.isSome_iff_exists.mp hsome
    rw [makeStructPackerField] at h
    split at h
    · cases h
    · rename_i i sf heqf
      by_cases h1 : sf.exported = false
      · rw [if_pos h1] at h
        cases h
      · rw [if_neg h1] at h
        by_cases h2 : isNonNullType v.type = true ∧ isPtrType sf.type = true
        · rw [if_pos h2] at h
          cases h
        · rw [if_neg h2] at h
          rw [hd] at h
          simp only [] at h
          split at h
          · cases h
          · injection h with hpair
            cases hpair
            have hk := assignPacker_key env fuel b (.nonNull (unwrapNonNull v.type).1)
              sf.type _ _ (by assumption)
            exact ⟨by rw [hk], hd.symm⟩
  · intro env fuel b t rt b' p h
    have hbridge : makePacker env (fuel+1) b (.nonNull t) rt =
        makeNonNullPacker env fuel b t rt := rfl
    rw [hbridge] at h
    exact makeNonNullPacker_not_nullPacker env fuel b t rt b' p h
  · intro env pm ds fuel ty
    rfl
  · intro env pm ds fuel sp
    rfl
  · intro env pm ds fuel sliceType k ep hk
    rw [Pack]
    · simp only [hk]
      cases hres : Pack env pm ds fuel ep .vnull <;>
        simp [hres, mapME, Except.map]
    · intro xs hxs
      cases hxs
  · intro env pm ds fuel values fs nm flds w0 f hpw hbound hfold hf habs
    exact (structPack_fold_fields env pm ds fuel values fs nm flds w0 hpw hbound hfold
      f hf).1 habs

/-! ## Counterexample fixtures: a defaulted list argument `values: [Int] = [1]` -/

/-- Environment with `args struct \x7b Values []*int32 \x7d`. -/
def listDefEnv : Env :=
  { goStructs := [("listArgs",
      [{ name := "Values", type := .slice (.ptr .int32T), exported := true }])],
    inputObjects := [] }

/-- The declared argument `values: [Int] = [1]`. -/
def listDefValues : List InputValueDef :=
  [{ name := "values", type := .list (.scalar "Int"), default := some (.vlist [.vint 1]) }]

/-- The struct packer the builder produces for that argument. -/
def listDefSP : StructPacker :=
  { id := 0, structType := "listArgs", usePtr := false,
    fields := [{ name := "values", index := 0, fdef := some (.vlist [.vint 1]),
                 key := (.nonNull (.list (.scalar "Int")), .slice (.ptr .int32T)) }] }

/-- The finished packer map of that build. -/
def listDefPM : List ((GqlType × GoType) × Option Packer) :=
  [((.nonNull (.list (.scalar "Int")), .slice (.ptr .int32T)),
      some (.listPacker (.slice (.ptr .int32T)) (.scalar "Int", .ptr .int32T))),
   ((.scalar "Int", .ptr .int32T),
      some (.nullPacker (.ValuePacker .int32T) (.ptr .int32T) true))]

/-- The defaults table `Finish` produces for that build. -/
def listDefDS : List (Nat × GoVal) :=
  [(0, .vstruct "listArgs" [("Values", .vslice (.ptr .int32T) [.vptr (some (.vint32 1))])])]

/-- Counterexample to C10 as stated: for the defaulted list-typed argument
`values: [Int] = [1]` — built by the builder exactly as shown, with the
non-null-keyed list packer — packing an explicitly supplied null for the
field succeeds (the null is wrapped into a singleton list whose element
packs to the nil pointer) instead of being a pack error. -/
theorem defaulted_list_field_null_packs :
    MakeStructPacker listDefEnv 10 NewBuilder listDefValues (.structT "listArgs") =
      .ok ({ packerMap := listDefPM, structPackers := [listDefSP] }, listDefSP) ∧
    Finish listDefEnv listDefPM 5 [listDefSP] [] = .ok listDefDS ∧
    Pack listDefEnv listDefPM listDefDS 5 (.StructPacker listDefSP)
        (.vmap [("values", .vnull)]) =
      .ok (.vstruct "listArgs" [("Values", .vslice (.ptr .int32T) [.vptr none])]) :=
  ⟨rfl, rfl, rfl⟩

/-- Witness for C10 (amended) at concrete instances: the builder's field
for the defaulted String argument carries the non-null key and the default;
the packer built for `Int!` is not a nullable wrapper; null on the list
packer of the counterexample wraps into a singleton; and the absent
defaulted field keeps the prototype's "world". -/
theorem defaulted_fields_nonnull_packer_witness :
    ((structPackerField.mk "name" 0 (some (.vstring none "world"))
        (.nonNull (.scalar "String"), .stringT)).key.1 =
      .nonNull (unwrapNonNull (.scalar "String")).1 ∧
     (structPackerField.mk "name" 0 (some (.vstring none "world"))
        (.nonNull (.scalar "String"), .stringT)).fdef =
      some (.vstring none "world")) ∧
    isNullPackerB (.ValuePacker .int32T) = false ∧
    Pack listDefEnv listDefPM listDefDS 4
        (.listPacker (.slice (.ptr .int32T)) (.scalar "Int", .ptr .int32T)) .vnull =
      .ok (.vslice (.ptr .int32T) [.vptr none]) ∧
    getFieldAt (.vstruct "helloArgs" [("Name", .vstring none "world")]) 0 =
      getFieldAt (.vstruct "helloArgs" [("Name", .vstring none "world")]) 0 := by
  refine ⟨?_, ?_, ?_, ?_⟩
  · exact defaulted_fields_nonnull_packer.1 helloEnv 8 NewBuilder
      [{ name := "Name", type := .stringT, exported := true }]
      { name := "name", type := .scalar "String", default := some (.vstring none "world") }
      { packerMap := [((.nonNull (.scalar "String"), .stringT),
          some (.ValuePacker .stringT))], structPackers := [] }
      (structPackerField.mk "name" 0 (some (.vstring none "world"))
        (.nonNull (.scalar "String"), .stringT))
      rfl rfl
  · exact defaulted_fields_nonnull_packer.2.1 recursiveEnv 5 NewBuilder
      (.scalar "Int") .int32T
      { packerMap := [], structPackers := [] } (.ValuePacker .int32T) rfl
  · have h := defaulted_fields_nonnull_packer.2.2.2.2.1 listDefEnv listDefPM listDefDS 3
      (.slice (.ptr .int32T)) (.scalar "Int", .ptr .int32T)
      (.nullPacker (.ValuePacker .int32T) (.ptr .int32T) true) rfl
    rw [h]
    rfl
  · have h := defaulted_fields_nonnull_packer.2.2.2.2.2 helloEnv helloPM helloDS 2 []
      helloSP.fields "helloArgs" [("Name", .vstring none "world")]
      (.vstruct "helloArgs" [("Name", .vstring none "world")])
      (structPackerField.mk "name" 0 (some (.vstring none "world"))
        (.nonNull (.scalar "String"), .stringT))
      (List.pairwise_singleton _ _)
      (by intro g hg; simp only [helloSP, List.mem_singleton] at hg; subst hg; decide)
      rfl (List.Mem.head _) rfl
    simp at h
    simp [h]

/-! ## Claim C2: serial mutation execution

The executor itself is outside this tree; the serial top-level execution of
mutations is modelled from the specification, while the resolver comes from
the test suite (`theNumberResolver`). -/

/-- The test resolver `theNumberResolver`: a shared 32-bit integer. -/
structure theNumberResolver where
  number : ℤ

/-- The resolver method `TheNumber`. -/
def TheNumber (r : theNumberResolver) : ℤ := r.number

/-- The resolver method `ChangeTheNumber`: sets the shared integer and
returns the resolver for the nested `Query` selection. -/
def ChangeTheNumber (r : theNumberResolver) (newNumber : ℤ) : theNumberResolver :=
  { r with number := newNumber }

/-- One top-level mutation field group of the test operation: a response
alias and the `newNumber` argument of `changeTheNumber`. -/
structure MutationField where
  aliasName : String
  newNumber : ℤ

/-- Modelled from the spec: mutation top-level field groups execute strictly
serially in selection order, each completing — including the nested
completion of `\x7b theNumber \x7d`, which reads the state the mutation just
wrote — before the next begins. The response pairs each alias with the
nested `theNumber` value. -/
def execMutationSerial (r : theNumberResolver) :
    List MutationField → List (String × ℤ) × theNumberResolver
  | [] => ([], r)
  | f :: rest =>
      let r2 := ChangeTheNumber r f.newNumber
      let nested := TheNumber r2
      let (out, rfinal) := execMutationSerial r2 rest
      ((f.aliasName, nested) :: out, rfinal)

/-- C2: under serial execution each top-level mutation field observes
exactly the number it just wrote (no later mutation runs before the nested
completion), and the concrete operation first/second/third with 1, 3, 2
returns \x7bfirst: \x7btheNumber: 1\x7d, second: \x7btheNumber: 3\x7d,
third: \x7btheNumber: 2\x7d\x7d. -/
theorem mutation_serial_order :
    (∀ (r : theNumberResolver) (fs : List MutationField),
        (execMutationSerial r fs).1 = fs.map (fun f => (f.aliasName, f.newNumber))) ∧
    (execMutationSerial ⟨0⟩
        [⟨"first", 1⟩, ⟨"second", 3⟩, ⟨"third", 2⟩]).1 =
      [("first", 1), ("second", 3), ("third", 2)] := by
  have general : ∀ (fs : List MutationField) (r : theNumberResolver),
      (execMutationSerial r fs).1 = fs.map (fun f => (f.aliasName, f.newNumber)) := by
    intro fs
    induction fs with
    | nil => intro r; rfl
    | cons f rest ih =>
        intro r
        rw [execMutationSerial]
        simp [ih, TheNumber, ChangeTheNumber]
  exact ⟨fun r fs => general fs r, rfl⟩

/-! ## Claim C1: error propagation in droid lists

The droid resolvers and the `NotFound` error come from the test suite; the
executor's value completion and null propagation are modelled from the
specification. -/

/-- A path segment of an execution path: a response key or a list index. -/
inductive PathSeg where
  | key (s : String)
  | index (i : Nat)
deriving DecidableEq, Repr

/-- A JSON response value. -/
inductive JVal where
  | null
  | jstr (s : String)
  | jarr (xs : List JVal)
  | jobj (fields : List (String × JVal))

/-- An entry of the response's error list. -/
structure GqlError where
  message : String
  path : List PathSeg
  extensions : List (String × String)
deriving DecidableEq, Repr

/-- The test's `resolverNotFoundError` with its `code`/`message` pair. -/
structure resolverNotFoundError where
  Code : String
  Message : String
deriving DecidableEq, Repr

/-- The test's `Error()` rendering. -/
def errorString (e : resolverNotFoundError) : String :=
  "Error [" ++ e.Code ++ "]: " ++ e.Message

/-- The test's `Extensions()` map. -/
def errorExtensions (e : resolverNotFoundError) : List (String × String) :=
  [("code", e.Code), ("message", e.Message)]

/-- The test's `droidResolver`: a name, or an error to raise from `Name`. -/
structure droidResolver where
  name : String
  err : Option resolverNotFoundError
deriving DecidableEq, Repr

/-- The resolver method `Name`. -/
def droidName (d : droidResolver) : Except resolverNotFoundError String :=
  match d.err with
  | some e => .error e
  | none => .ok d.name

/-- The test fixtures `r2d2`, `c3po`, `notFoundDroid` and
`droidNotFoundError`. -/
def droidNotFoundError : resolverNotFoundError :=
  { Code := "NotFound", Message := "This is not the droid you are looking for" }

/-- The droid fixture `r2d2`. -/
def r2d2 : droidResolver := { name := "R2-D2", err := none }

/-- The droid fixture `c3po`. -/
def c3po : droidResolver := { name := "C-3PO", err := none }

/-- The droid fixture `notFoundDroid`. -/
def notFoundDroid : droidResolver := { name := "", err := some droidNotFoundError }

/-- Modelled from the spec: completion of one droid against the selection
`\x7b name \x7d` where `Droid.name: String!`. A resolver error is recorded
once, at the field's path, with the error's extensions; the field becomes
null, and since `name` is non-null the droid object itself fails (null
bubbles to it with no further error). -/
def completeDroid (path : List PathSeg) (d : droidResolver) :
    Option JVal × List GqlError :=
  match droidName d with
  | .ok s => (some (.jobj [("name", .jstr s)]), [])
  | .error e =>
      (none, [{ message := errorString e, path := path ++ [.key "name"],
                extensions := errorExtensions e }])

/-- Modelled from the spec: list completion. Each element is completed with
the path extended by its index, errors are collected in order; if an
element fails and the element type is non-null the whole list fails,
otherwise failed elements become null entries. -/
def completeDroidList (path : List PathSeg) (elemNonNull : Bool)
    (ds : List droidResolver) : Option JVal × List GqlError :=
  let completed := (List.enum ds).map
    (fun p => completeDroid (path ++ [.index p.1]) p.2)
  let errs := (completed.map Prod.snd).flatten
  if elemNonNull ∧ completed.any (fun c => (c.1).isNone) then
    (none, errs)
  else
    (some (.jarr (completed.map (fun c => (c.1).getD .null))), errs)

/-- Modelled from the spec: executing `\x7b findDroids \x7b name \x7d \x7d`
where the root field's list type is non-null (`[Droid!]!` when
`elemNonNull`, `[Droid]!` otherwise): a failed list bubbles null to the
whole `data`. -/
def execFindDroids (elemNonNull : Bool) (ds : List droidResolver) :
    Option JVal × List GqlError :=
  match completeDroidList [.key "findDroids"] elemNonNull ds with
  | (none, errs) => (none, errs)
  | (some v, errs) => (some (.jobj [("findDroids", v)]), errs)

/-- C1: against `[Droid!]!` the response data is null and the error list
holds exactly one entry with path ["findDroids", 1, "name"] and the
NotFound extensions; against `[Droid]!` the data holds the three entries
with the middle one null and the same single error. -/
theorem findDroids_error_propagation :
    execFindDroids true [r2d2, notFoundDroid, c3po] =
      (none,
       [{ message := errorString droidNotFoundError,
          path := [.key "findDroids", .index 1, .key "name"],
          extensions := [("code", "NotFound"),
                         ("message", "This is not the droid you are looking for")] }]) ∧
    execFindDroids false [r2d2, notFoundDroid, c3po] =
      (some (.jobj [("findDroids",
          .jarr [.jobj [("name", .jstr "R2-D2")], .null,
                 .jobj [("name", .jstr "C-3PO")]])]),
       [{ message := errorString droidNotFoundError,
          path := [.key "findDroids", .index 1, .key "name"],
          extensions := [("code", "NotFound"),
                         ("message", "This is not the droid you are looking for")] }]) := by
  constructor
  · rfl
  · rfl
